import Mathlib

/-!
Verification development for the Plan Execution & Recovery subsystem of the
`home-server-ai` repository.  Each Python module relevant to the claims is
shallowly embedded as executable Lean definitions, translated directly from
the source:

* `error_recovery.py`   → namespace `ErrorRecovery`
* `retry_utils.py`      → namespace `RetryUtils`
* `circuit_breaker.py`  → namespace `CircuitBreakerM`
* `executor.py`         → namespace `Executor`
* `rollback_manager.py` → namespace `RollbackM`

Machine-level conventions used throughout:
* Python strings are Lean `String`s; `pat in s` is `pyIn pat s` (substring
  containment over the character lists).
* Python exceptions are modelled with `Except`; an uncaught exception is an
  `Except.error` value that the embedding propagates exactly where the
  source's control flow would.
* External effects (subprocesses, the OpenAI client, user input, the clock)
  are oracles passed in explicitly; the embedding records which effects were
  performed (event traces, call counters) so that claims about "never
  invokes" / "no network access" are statements about those records.
-/

set_option maxRecDepth 8192

/-- Booleans test: does the character list `p` occur at the head of `l`?
(Helper for Python's substring containment.) -/
def charsHasPre : List Char → List Char → Bool
  | _, [] => true
  | [], _ :: _ => false
  | a :: as, b :: bs => a == b && charsHasPre as bs

/-- Booleans test: does the character list `p` occur contiguously anywhere in
the list? -/
def charsHasSub (p : List Char) : List Char → Bool
  | [] => p == []
  | a :: as => charsHasPre (a :: as) p || charsHasSub p as

/-- Embedding of Python's `pat in s` for strings: `pat` occurs as a
contiguous substring of `s`. -/
def pyIn (pat s : String) : Bool :=
  charsHasSub pat.toList s.toList

/-- Embedding of Python's `str.lower()` (character-wise; the sources only
lowercase ASCII command/output text).  Defined over the character list so
that it reduces inside the kernel. -/
def pyLower (s : String) : String :=
  ⟨s.data.map Char.toLower⟩

/-- Embedding of Python's `str.strip()`: drop leading and trailing
whitespace. -/
def pyStrip (s : String) : String :=
  ⟨((s.data.dropWhile Char.isWhitespace).reverse.dropWhile Char.isWhitespace).reverse⟩

/-- Embedding of Python's slice `s[:n]`. -/
def pyTake (n : Nat) (s : String) : String :=
  ⟨s.data.take n⟩

namespace ErrorRecovery

/-- Embedding of the JSON diagnosis dictionary produced by
`ErrorRecoveryEngine` (`error_recovery.py`).  Every fallback-path dictionary
carries all seven keys; `alternative_fixes` is `Option` because the GPT
validation code never backfills that key (all consumers read it with
`.get`). -/
structure Diagnosis where
  analysis : String
  severity : String
  suggested_fix : String
  fix_type : String
  alternative_fixes : Option (List String)
  can_auto_retry : Bool
  explanation_for_user : String
  deriving DecidableEq, Repr

/-- The `self.common_fixes` table from `ErrorRecoveryEngine.__init__`
(`error_recovery.py` lines 45-70), in insertion order (Python dicts iterate
in insertion order): `(pattern, fix_type, suggestion)`. -/
def common_fixes : List (String × String × String) :=
  [("command not found", "install_dependency", "Install the missing package with apt"),
   ("permission denied", "modify_command", "Try running with sudo"),
   ("could not resolve host", "retry", "Check internet connection and retry"),
   ("port is already allocated", "modify_command", "Stop the existing service or use a different port"),
   ("bind: address already in use", "modify_command", "Port in use - check with: sudo lsof -i :PORT"),
   ("docker: permission denied", "modify_command", "User needs docker group. Run: sudo usermod -aG docker $USER && newgrp docker")]

/-- Embedding of `ErrorRecoveryEngine._analyze_docker_error`
(`error_recovery.py` lines 245-288). -/
def analyze_docker_error (error_text : String) : Diagnosis :=
  if pyIn "cannot connect" error_text then
    { analysis := "Docker daemon not running", severity := "high",
      suggested_fix := "sudo systemctl start docker", fix_type := "modify_command",
      alternative_fixes := some ["sudo service docker start"], can_auto_retry := true,
      explanation_for_user := "The Docker service isn\x27t running. I can try to start it." }
  else if pyIn "image not found" error_text || pyIn "pull access denied" error_text then
    { analysis := "Docker image not found or access denied", severity := "medium",
      suggested_fix := "Check image name and try again", fix_type := "retry",
      alternative_fixes := some ["Use alternative image"], can_auto_retry := true,
      explanation_for_user := "The Docker image could not be downloaded. Let me retry." }
  else if pyIn "container name already in use" error_text then
    { analysis := "Container with this name already exists", severity := "low",
      suggested_fix := "docker rm -f CONTAINER_NAME", fix_type := "modify_command",
      alternative_fixes := some ["Use different container name"], can_auto_retry := true,
      explanation_for_user := "A container with this name already exists. I can remove it." }
  else
    { analysis := "Docker error occurred", severity := "medium",
      suggested_fix := "Check Docker status: sudo systemctl status docker",
      fix_type := "manual_intervention", alternative_fixes := some [],
      can_auto_retry := false,
      explanation_for_user := "A Docker error occurred. Check the Docker service status." }

/-- Embedding of `ErrorRecoveryEngine._analyze_apt_error`
(`error_recovery.py` lines 290-333). -/
def analyze_apt_error (error_text : String) : Diagnosis :=
  if pyIn "unable to locate package" error_text then
    { analysis := "Package not found in repository", severity := "medium",
      suggested_fix := "sudo apt update", fix_type := "modify_command",
      alternative_fixes := some ["Enable universe/multiverse repositories"],
      can_auto_retry := true,
      explanation_for_user := "The package was not found. Updating package lists may fix this." }
  else if pyIn "could not get lock" error_text then
    { analysis := "Another package manager is running", severity := "medium",
      suggested_fix := "Wait for other package manager to complete", fix_type := "retry",
      alternative_fixes := some ["Kill other apt process: sudo killall apt"],
      can_auto_retry := true,
      explanation_for_user := "Another package installation is in progress. Let me wait and retry." }
  else if pyIn "broken packages" error_text then
    { analysis := "Package dependencies are broken", severity := "high",
      suggested_fix := "sudo apt --fix-broken install", fix_type := "modify_command",
      alternative_fixes := some ["sudo dpkg --configure -a"], can_auto_retry := true,
      explanation_for_user := "Package dependencies are broken. I can try to fix them." }
  else
    { analysis := "Package manager error occurred", severity := "medium",
      suggested_fix := "Check apt status and try again", fix_type := "manual_intervention",
      alternative_fixes := some [], can_auto_retry := false,
      explanation_for_user := "A package manager error occurred. You may need to fix it manually." }

/-- The combined output scanned by `_fallback_analyze`:
`error_text = (stderr + stdout).lower()` (`error_recovery.py` line 174). -/
def combined_output (stdout stderr : String) : String :=
  pyLower (stderr ++ stdout)

/-- Embedding of `ErrorRecoveryEngine._fallback_analyze`
(`error_recovery.py` lines 172-243): pattern-based analysis.
`error_text = (stderr + stdout).lower()`; the `common_fixes` table is
scanned in insertion order, then the docker / port-53 / network / disk /
apt branches in source order, then the generic diagnosis. -/
def fallback_analyze (command stdout stderr : String) : Diagnosis :=
  let error_text := combined_output stdout stderr
  match common_fixes.find? (fun it => pyIn it.1 error_text) with
  | some (pattern, fix_type, suggestion) =>
      { analysis := "Detected \x27" ++ pattern ++ "\x27 error", severity := "medium",
        suggested_fix := suggestion, fix_type := fix_type,
        alternative_fixes := some [],
        can_auto_retry := fix_type == "retry" || fix_type == "modify_command",
        explanation_for_user := "The system couldn\x27t run the command because "
          ++ pattern ++ ". " ++ suggestion ++ "." }
  | none =>
    if pyIn "docker" (pyLower command) then
      analyze_docker_error error_text
    else if (pyIn "53" command || pyIn "adguard" (pyLower command))
        && (pyIn "bind" error_text || pyIn "address already in use" error_text) then
      { analysis := "Port 53 is in use by systemd-resolved", severity := "medium",
        suggested_fix := "sudo systemctl stop systemd-resolved && sudo systemctl disable systemd-resolved",
        fix_type := "modify_command",
        alternative_fixes := some ["Configure AdGuard on different port"],
        can_auto_retry := true,
        explanation_for_user := "Another service is using the DNS port. I can stop it to free up the port." }
    else if pyIn "connection refused" error_text || pyIn "connection timed out" error_text then
      { analysis := "Network connectivity issue", severity := "medium",
        suggested_fix := "Check internet connection and retry", fix_type := "retry",
        alternative_fixes := some ["Check firewall settings"], can_auto_retry := true,
        explanation_for_user := "There was a network problem. Let me try again." }
    else if pyIn "no space left" error_text || pyIn "disk full" error_text then
      { analysis := "Disk space exhausted", severity := "critical",
        suggested_fix := "Free up disk space: df -h", fix_type := "manual_intervention",
        alternative_fixes := some ["Clean up temporary files", "Remove old Docker images"],
        can_auto_retry := false,
        explanation_for_user := "The disk is full. You need to free up space before continuing." }
    else if pyIn "apt" (pyLower command) then
      analyze_apt_error error_text
    else
      { analysis := "Unknown error occurred", severity := "medium",
        suggested_fix := "Check error logs for details", fix_type := "manual_intervention",
        alternative_fixes := some ["Skip this step and continue", "Rollback and retry"],
        can_auto_retry := false,
        explanation_for_user := "Something went wrong: " ++ pyTake 100 stderr
          ++ ". You may need to fix this manually." }

/-- A GPT response dictionary before the validation step of `_gpt_analyze`:
any of the seven keys may be absent. -/
structure PartialDiagnosis where
  analysis : Option String
  severity : Option String
  suggested_fix : Option String
  fix_type : Option String
  alternative_fixes : Option (List String)
  can_auto_retry : Option Bool
  explanation_for_user : Option String
  deriving DecidableEq, Repr

/-- One interaction with the external classifier (`self.client.chat.completions.create`
in `_gpt_analyze`), covering every outcome class the source distinguishes. -/
inductive GptBehavior where
  /-- The API call raises (network failure, timeout, HTTP error, ...). -/
  | raises
  /-- The response arrives with empty `content`: the source raises
  `ValueError("Empty response from GPT")`, re-raised by the generic handler. -/
  | emptyContent
  /-- `json.loads(content)` raises `JSONDecodeError`. -/
  | badJson
  /-- `json.loads` succeeds but yields a non-dict, so the first backfill
  assignment raises `TypeError`, re-raised by the generic handler. -/
  | notDict
  /-- A JSON object was parsed; fields may be missing. -/
  | parsed (d : PartialDiagnosis)
  deriving DecidableEq, Repr

/-- The field backfill of `_gpt_analyze` (`error_recovery.py` lines 148-159):
missing keys get defaults; the `explanation_for_user` default is the (already
backfilled) `analysis` value.  `alternative_fixes` is never backfilled. -/
def validate_gpt_result (d : PartialDiagnosis) : Diagnosis :=
  let analysis := d.analysis.getD "Unknown error occurred"
  { analysis := analysis,
    severity := d.severity.getD "medium",
    suggested_fix := d.suggested_fix.getD "Check error logs for details",
    fix_type := d.fix_type.getD "manual_intervention",
    alternative_fixes := d.alternative_fixes,
    can_auto_retry := d.can_auto_retry.getD false,
    explanation_for_user := d.explanation_for_user.getD analysis }

/-- Embedding of `ErrorRecoveryEngine._gpt_analyze` (`error_recovery.py`
lines 101-170) for a configured client.  `Except.error ()` marks an
exception escaping `_gpt_analyze` (the source's final handler re-raises);
`JSONDecodeError` is caught inside and produces the fallback diagnosis with
a " (GPT parsing failed)" suffix on `analysis`. -/
def gpt_analyze (g : GptBehavior) (command stdout stderr : String) :
    Except Unit Diagnosis :=
  match g with
  | .raises => .error ()
  | .emptyContent => .error ()
  | .badJson =>
      let r := fallback_analyze command stdout stderr
      .ok { r with analysis := r.analysis ++ " (GPT parsing failed)" }
  | .notDict => .error ()
  | .parsed d => .ok (validate_gpt_result d)

/-- Embedding of `ErrorRecoveryEngine.analyze_error` (`error_recovery.py`
lines 72-99).  `client = none` models an engine with no API key (no external
classifier configured).  The second component counts how many external
classifier calls were attempted.  Inputs are truncated to `MAX_LENGTH = 5000`
before any processing.  The `try/except Exception` around `_gpt_analyze`
turns every escaping exception into the fallback analysis. -/
def analyze_error (client : Option GptBehavior) (command stdout stderr : String) :
    Except Unit Diagnosis × Nat :=
  let command := pyTake 5000 command
  let stdout := pyTake 5000 stdout
  let stderr := pyTake 5000 stderr
  match client with
  | some g =>
      match gpt_analyze g command stdout stderr with
      | .ok d => (.ok d, 1)
      | .error _ => (.ok (fallback_analyze command stdout stderr), 1)
  | none => (.ok (fallback_analyze command stdout stderr), 0)

end ErrorRecovery

namespace RetryUtils

/-- Loop body of the `retry_with_backoff` wrapper (`retry_utils.py` lines
30-61).  `f i` is the outcome of the wrapped function's `i`-th invocation
(`i = attempt`); `retriable e` tells whether exception `e` matches the
`exceptions` tuple of the decorator (only such exceptions are caught by the
`except exceptions as e:` clause; others propagate at once).  `left` is the
number of loop iterations remaining after the current one, so the call
`retry_go retriable f maxRetries 0 0` runs `for attempt in
range(max_retries + 1)`; on an iteration with `left > 0` we have
`attempt < max_retries`, so the source's `attempt >= max_retries` test is
false there and true exactly in the base case.  Result components: the
propagated outcome, the number of invocations of the wrapped function, and
the number of `time.sleep` calls performed. -/
def retry_go {E A : Type} (retriable : E → Bool) (f : Nat → Except E A) :
    (left attempt sleeps : Nat) → Except E A × Nat × Nat
  | 0, attempt, sleeps =>
    match f attempt with
    | .ok a => (.ok a, attempt + 1, sleeps)
    | .error e => (.error e, attempt + 1, sleeps)
  | left + 1, attempt, sleeps =>
    match f attempt with
    | .ok a => (.ok a, attempt + 1, sleeps)
    | .error e =>
      if retriable e then retry_go retriable f left (attempt + 1) (sleeps + 1)
      else (.error e, attempt + 1, sleeps)

/-- Embedding of `retry_with_backoff(max_retries, ...)` applied to a wrapped
function whose `i`-th invocation yields `f i` (`retry_utils.py` lines
11-62). -/
def retry_with_backoff {E A : Type} (maxRetries : Nat) (retriable : E → Bool)
    (f : Nat → Except E A) : Except E A × Nat × Nat :=
  retry_go retriable f maxRetries 0 0

end RetryUtils

namespace CircuitBreakerM

/-- `CircuitState` enum (`circuit_breaker.py` lines 15-18). -/
inductive CircuitState where
  | CLOSED
  | OPEN
  | HALF_OPEN
  deriving DecidableEq, Repr

/-- Raised-exception classes relevant to `CircuitBreaker.call`. -/
inductive CallErr where
  /-- `CircuitBreakerOpen` (`circuit_breaker.py` lines 165-167). -/
  | circuitBreakerOpen
  /-- `AttributeError` from reading a never-assigned instance attribute. -/
  | attributeError
  /-- The wrapped function's own exception, re-raised by `call`. -/
  | wrappedException
  deriving DecidableEq, Repr

/-- The instance attributes assigned in `CircuitBreaker.__init__`
(`circuit_breaker.py` lines 33-51), with the source's names (the leading
underscore included).  Wall-clock instants and durations are idealized as
rationals. -/
structure CircuitBreaker where
  _failure_threshold : Nat
  _recovery_timeout : ℚ
  half_open_max_calls : Nat
  name : String
  _state : CircuitState
  _failure_count : Nat
  _success_count : Nat
  _last_failure_time : Option ℚ
  _half_open_calls : Nat
  deriving DecidableEq, Repr

/-- Embedding of `CircuitBreaker._should_attempt_reset` (`circuit_breaker.py`
lines 98-102):

    if self._last_failure_time is None:
        return True
    return time.time() - self._last_failure_time >= self.recovery_timeout

`__init__` assigns `self._recovery_timeout` (line 41); no code ever assigns
a `recovery_timeout` attribute and the class defines no such property, so
the read `self.recovery_timeout` on the final line raises `AttributeError`
whenever it is reached, i.e. whenever `_last_failure_time` is set.  `now`
is the ambient `time.time()` value. -/
def _should_attempt_reset (cb : CircuitBreaker) (now : ℚ) : Except CallErr Bool :=
  match cb._last_failure_time with
  | none => .ok true
  | some _ => .error .attributeError

/-- Embedding of `CircuitBreaker._get_retry_after` (`circuit_breaker.py`
lines 104-109).  Like `_should_attempt_reset`, its last line reads the
nonexistent `self.recovery_timeout` attribute, so with a recorded failure
time it raises `AttributeError`. -/
def _get_retry_after (cb : CircuitBreaker) (now : ℚ) : Except CallErr ℚ :=
  match cb._last_failure_time with
  | none => .ok 0
  | some _ => .error .attributeError

/-- Embedding of `CircuitBreaker._reset` (`circuit_breaker.py` lines
138-144). -/
def _reset (cb : CircuitBreaker) : CircuitBreaker :=
  { cb with _state := .CLOSED, _failure_count := 0, _success_count := 0,
            _half_open_calls := 0, _last_failure_time := none }

/-- Embedding of `CircuitBreaker._on_success` (`circuit_breaker.py` lines
111-120).  `max(0, n - 1)` is truncated subtraction on `Nat`. -/
def _on_success (cb : CircuitBreaker) : CircuitBreaker :=
  if cb._state = .HALF_OPEN then
    let cb' := { cb with _success_count := cb._success_count + 1 }
    if cb'._success_count ≥ cb'.half_open_max_calls then _reset cb' else cb'
  else
    { cb with _failure_count := cb._failure_count - 1 }

/-- Embedding of `CircuitBreaker._on_failure` (`circuit_breaker.py` lines
122-136); `now` is the `time.time()` instant recorded as the last failure
time.  (This method reads `self._recovery_timeout`, the attribute that does
exist, so no error arises here.) -/
def _on_failure (cb : CircuitBreaker) (now : ℚ) : CircuitBreaker :=
  let cb' := { cb with _failure_count := cb._failure_count + 1,
                       _last_failure_time := some now }
  if cb._state = .HALF_OPEN then { cb' with _state := .OPEN }
  else if cb'._failure_count ≥ cb'._failure_threshold then { cb' with _state := .OPEN }
  else cb'

/-- The `try: result = func(...)` block of `CircuitBreaker.call`
(`circuit_breaker.py` lines 89-96).  `func` is the wrapped function's
outcome.  Result components: the call's outcome, the breaker afterwards,
and whether the wrapped function was invoked. -/
def _execute {A : Type} (cb : CircuitBreaker) (now : ℚ) (func : Except Unit A) :
    Except CallErr A × CircuitBreaker × Bool :=
  match func with
  | .ok a => (.ok a, _on_success cb, true)
  | .error _ => (.error .wrappedException, _on_failure cb now, true)

/-- Embedding of `CircuitBreaker.call` (`circuit_breaker.py` lines 60-96).
In the `OPEN` branch the source first evaluates `self._should_attempt_reset()`;
an `AttributeError` raised there escapes `call` before anything else happens
(no state change, no invocation).  If that check returned `False`, the
`CircuitBreakerOpen` message itself evaluates `self._get_retry_after()`,
which can likewise raise. -/
def call {A : Type} (cb : CircuitBreaker) (now : ℚ) (func : Except Unit A) :
    Except CallErr A × CircuitBreaker × Bool :=
  match cb._state with
  | .OPEN =>
    match _should_attempt_reset cb now with
    | .error _ => (.error .attributeError, cb, false)
    | .ok true => _execute { cb with _state := .HALF_OPEN, _half_open_calls := 0 } now func
    | .ok false =>
      match _get_retry_after cb now with
      | .error _ => (.error .attributeError, cb, false)
      | .ok _ => (.error .circuitBreakerOpen, cb, false)
  | .HALF_OPEN =>
    if cb._half_open_calls ≥ cb.half_open_max_calls then
      (.error .circuitBreakerOpen, cb, false)
    else
      _execute { cb with _half_open_calls := cb._half_open_calls + 1 } now func
  | .CLOSED => _execute cb now func

/-- A breaker with the default construction parameters
(`failure_threshold=5, recovery_timeout=60.0, half_open_max_calls=3`) that
has tripped open: five failures were recorded, the last at time `0`.  This
is exactly the state any `CircuitBreaker` is in right after `_on_failure`
moved it to `OPEN` (so `_last_failure_time` is set). -/
def openBreaker : CircuitBreaker :=
  { _failure_threshold := 5, _recovery_timeout := 60, half_open_max_calls := 3,
    name := "default", _state := .OPEN, _failure_count := 5, _success_count := 0,
    _last_failure_time := some 0, _half_open_calls := 0 }

end CircuitBreakerM

namespace Executor

/-- The `ExecutionResult` dataclass (`executor.py` lines 24-42) restricted
to its logical fields; `duration_ms` and `timestamp` are wall-clock readings
carried along unchanged and are omitted from the model. -/
structure ExecutionResult where
  success : Bool
  returncode : Int
  stdout : String
  stderr : String
  deriving DecidableEq, Repr

/-- `ExecutionEngine.DANGEROUS_PATTERNS` (`executor.py` lines 169-188), in
source order. -/
def DANGEROUS_PATTERNS : List String :=
  ["rm -rf /",
   "rm -rf /*",
   "mkfs",
   "dd if=/dev/zero",
   ":()\x7b :|:& \x7d;:",
   "> /dev/sda",
   ">/dev/sda",
   "mv /* /dev/null",
   "chmod -R 777 /",
   "chmod -R 777 /*",
   "mkfs.ext4 /dev/sda",
   "mkfs.xfs /dev/sda",
   "mkfs.btrfs /dev/sda",
   "dd of=/dev/sda",
   "dd if=/dev/random of=/dev/sda",
   "dd if=/dev/urandom of=/dev/sda",
   "shred /dev/sda",
   "echo \"* * * * * rm -rf /\" | crontab"]

/-- Embedding of `ExecutionEngine.validate_command` (`executor.py` lines
211-221): reject when the command is empty/whitespace (`not command or not
command.strip()`), or when the lowercased command contains any deny-list
pattern (first match reported).  It runs nothing. -/
def validate_command (command : String) : Bool × String :=
  if pyStrip command = "" then (false, "Empty command")
  else
    let cmd_lower := pyLower command
    match DANGEROUS_PATTERNS.find? (fun p => pyIn p cmd_lower) with
    | some p => (false, "Command contains dangerous pattern: " ++ p)
    | none => (true, "OK")

/-- A plan step dictionary as read by `execute_step` (`executor.py` lines
223-306).  `command = ""` models an absent or falsy `command` key (the
source tests `step.get('command')`, so an empty string is dropped), and
likewise for `check_command`. -/
structure PlanStep where
  step_number : Option Nat
  name : String
  command : String
  commands : List String
  requires_sudo : Bool
  check_command : String
  deriving DecidableEq, Repr

/-- Subprocess spawns performed during one `execute_step` call: `main cmd`
is `self._run_command(cmd, timeout)` for a step command, `check cmd` the
unvalidated `self._run_command(check_cmd, timeout=30)` verification call. -/
inductive CmdEv where
  | main (cmd : String)
  | check (cmd : String)
  deriving DecidableEq, Repr

/-- Environment of one `execute_step` call: engine flags, the reply the user
would give to the sudo confirmation prompt, and an outcome oracle for
`_run_command`. -/
structure StepEnv where
  dry_run : Bool
  auto_approve : Bool
  sudo_answer : String
  run : String → ExecutionResult

/-- Result of `execute_step`: the returned `ExecutionResult`, the ordered
subprocess spawns, and the status recorded by the final
`state.update_step` call for the step. -/
structure StepOutcome where
  result : ExecutionResult
  events : List CmdEv
  status : String
  deriving DecidableEq, Repr

/-- The command list assembled at `executor.py` lines 230-234: the truthy
`command` field, then the `commands` list. -/
def step_commands (step : PlanStep) : List String :=
  (if step.command ≠ "" then [step.command] else []) ++ step.commands

/-- The `for cmd in commands:` loop of `execute_step` (`executor.py` lines
249-306), including the trailing `check_command` verification and the final
`update_step(..., 'completed', result)`.  `last` is the `result` variable
(the most recent command's result); the loop runs on a nonempty list, so
`last` is always overwritten before the base case reads it. -/
def step_cmd_loop (env : StepEnv) (step : PlanStep) :
    List String → ExecutionResult → List CmdEv → StepOutcome
  | [], last, evs =>
    let evs := if step.check_command ≠ "" && !env.dry_run
               then evs ++ [.check step.check_command] else evs
    { result := last, events := evs, status := "completed" }
  | cmd :: rest, last, evs =>
    let v := validate_command cmd
    if !v.1 then
      { result := { success := false, returncode := -1, stdout := "",
                    stderr := "Validation failed: " ++ v.2 },
        events := evs, status := "failed" }
    else if !env.auto_approve && step.requires_sudo
        && (let confirm := pyLower (pyStrip env.sudo_answer);
            confirm ≠ "" && confirm ≠ "y" && confirm ≠ "yes") then
      { result := { success := false, returncode := -1, stdout := "",
                    stderr := "User cancelled" },
        events := evs, status := "cancelled" }
    else if env.dry_run then
      step_cmd_loop env step rest
        { success := true, returncode := 0, stdout := "[DRY RUN]", stderr := "" } evs
    else
      let r := env.run cmd
      if !r.success then
        { result := r, events := evs ++ [.main cmd], status := "failed" }
      else
        step_cmd_loop env step rest r (evs ++ [.main cmd])

/-- Embedding of `ExecutionEngine.execute_step` (`executor.py` lines
223-306) for an engine with an active session.  An empty assembled command
list returns a synthetic success recorded as completed (lines 237-244). -/
def execute_step (env : StepEnv) (step : PlanStep) : StepOutcome :=
  match step_commands step with
  | [] => { result := { success := true, returncode := 0, stdout := "", stderr := "" },
            events := [], status := "completed" }
  | cmd :: rest =>
      step_cmd_loop env step (cmd :: rest)
        { success := true, returncode := 0, stdout := "", stderr := "" } []

/-- The step commands actually spawned (the `main` events), in order. -/
def main_cmds (evs : List CmdEv) : List String :=
  evs.filterMap (fun ev => match ev with | .main c => some c | .check _ => none)

/-- A row of the append-only `execution_state` table (`executor.py` lines
63-73); `result_json` and `timestamp` are omitted (opaque payloads). -/
structure ExecRow where
  session_id : String
  step_number : Nat
  step_name : String
  status : String
  deriving DecidableEq, Repr

/-- A row of the `sessions` table (`executor.py` lines 74-86): `session_id`
is declared UNIQUE, `current_step` has `DEFAULT 0` and `status` has
`DEFAULT 'in_progress'`. -/
structure SessionRow where
  session_id : String
  hardware_profile : String
  user_requirements : String
  plan_json : String
  current_step : Nat
  status : String
  created_at : String
  updated_at : String
  deriving DecidableEq, Repr

/-- The two tables owned by `StateManager`. -/
structure Db where
  sessions : List SessionRow
  execution_state : List ExecRow
  deriving Repr

/-- Embedding of `StateManager.create_session` (`executor.py` lines 99-110).
The `INSERT OR REPLACE INTO sessions` statement names only `session_id,
hardware_profile, user_requirements, plan_json, created_at, updated_at`; on
a `session_id` conflict SQLite deletes the conflicting row and inserts a
fresh one in which the unnamed columns `current_step` and `status` take
their declared defaults (0 and in_progress).  `now` is
`datetime.now().isoformat()`. -/
def create_session (db : Db) (now session_id hardware requirements plan : String) : Db :=
  { db with sessions :=
      db.sessions.filter (fun r => !(r.session_id == session_id)) ++
        [{ session_id := session_id, hardware_profile := hardware,
           user_requirements := requirements, plan_json := plan,
           current_step := 0, status := "in_progress",
           created_at := now, updated_at := now }] }

/-- Embedding of `StateManager.get_completed_steps` (`executor.py` lines
146-154): `SELECT DISTINCT step_number FROM execution_state WHERE
session_id = ? AND status = completed`. -/
def get_completed_steps (db : Db) (session_id : String) : List Nat :=
  ((db.execution_state.filter
      (fun r => r.session_id == session_id && r.status == "completed")).map
    (fun r => r.step_number)).eraseDups

/-- Events recorded while `execute_plan` runs: `exec i n k` is a
`self.execute_step(step)` call for the step at list position `i` with
resolved step number `n` (`k = 0` the initial attempt, `k = 1` the single
retry after a successful fix); `fix i a` is the
`self._run_command(analysis.get(suggested_fix), timeout=60)` call made while
handling the failure of step `i`, where `a` is the diagnosis returned by the
Analyzer. -/
inductive PlanEv where
  | exec (i n k : Nat)
  | fix (i : Nat) (a : ErrorRecovery.Diagnosis)
  deriving DecidableEq, Repr

/-- The plan-list position an event belongs to. -/
def PlanEv.idx : PlanEv → Nat
  | .exec i _ _ => i
  | .fix i _ => i

/-- Environment of one `execute_plan` call: engine flags, the reply the user
would give to the automatic-fix prompt, outcome oracles for
`execute_step` (by position and attempt) and for the fix command, and the
Analyzer as a function (the engine builds a fresh `ErrorRecoveryEngine` and
calls `analyze_error(command, stdout, stderr, step_context)`). -/
structure PlanEnv where
  dry_run : Bool
  has_session : Bool
  fix_answer : String
  step_result : Nat → Nat → ExecutionResult
  fix_result : String → ExecutionResult
  analyze : String → String → String → ErrorRecovery.Diagnosis

/-- The automatic-fix prompt test at `executor.py` lines 494-495:
`retry = input(...).strip().lower(); if not retry or retry in ['y', 'yes']`. -/
def fix_accepted (env : PlanEnv) : Bool :=
  let retry := pyLower (pyStrip env.fix_answer)
  retry == "" || retry == "y" || retry == "yes"

/-- The command reported to the Analyzer for a failed step:
`step.get('command') or ' '.join(step.get('commands', []))`
(`executor.py` line 487). -/
def plan_command (step : PlanStep) : String :=
  if step.command ≠ "" then step.command
  else String.intercalate " " step.commands

/-- The failure-recovery block of `execute_plan` (`executor.py` lines
470-508) for the failed step at position `i` with resolved number `n` and
initial result `r`.  Returns the events after the initial execution and
whether the loop continues to the next step (`false` is the `break` at line
508 — the plan halts).  Note the source gates the fix attempt on
`analysis.get('can_auto_retry') and not self.dry_run` only (line 493); the
diagnosis fix_type is never consulted. -/
def recovery_events (env : PlanEnv) (i n : Nat) (step : PlanStep)
    (r : ExecutionResult) : List PlanEv × Bool :=
  if !env.has_session then ([], false)
  else
    let a := env.analyze (plan_command step) r.stdout r.stderr
    if a.can_auto_retry && !env.dry_run then
      if fix_accepted env then
        let fr := env.fix_result a.suggested_fix
        if fr.success then
          ([.fix i a, .exec i n 1], (env.step_result i 1).success)
        else ([.fix i a], false)
      else ([], false)
    else ([], false)

/-- Embedding of the `for i, step in enumerate(steps)` loop of
`ExecutionEngine.execute_plan` (`executor.py` lines 451-511) as the ordered
trace of `execute_step` and fix-command invocations.  `completed` is the
list `get_completed_steps` returned at entry (line 445); a step whose
resolved number is in it is skipped (line 460), as is one below
`resume_from` (line 464). -/
def execute_plan_loop (env : PlanEnv) (completed : List Nat) (resume_from : Nat) :
    List PlanStep → Nat → List PlanEv
  | [], _ => []
  | step :: rest, i =>
    let step_num := step.step_number.getD i
    if completed.contains step_num then
      execute_plan_loop env completed resume_from rest (i + 1)
    else if step_num < resume_from then
      execute_plan_loop env completed resume_from rest (i + 1)
    else
      let r := env.step_result i 0
      if r.success then
        .exec i step_num 0 :: execute_plan_loop env completed resume_from rest (i + 1)
      else
        let rec_ := recovery_events env i step_num step r
        if rec_.2 then
          (.exec i step_num 0 :: rec_.1) ++ execute_plan_loop env completed resume_from rest (i + 1)
        else
          .exec i step_num 0 :: rec_.1

/-- Embedding of `ExecutionEngine.execute_plan` (`executor.py` lines
438-520) at trace level. -/
def execute_plan (env : PlanEnv) (completed : List Nat) (resume_from : Nat)
    (steps : List PlanStep) : List PlanEv :=
  execute_plan_loop env completed resume_from steps 0

end Executor

namespace RollbackM

/-- The filesystem as a map from absolute paths to whole-tree content blobs.
`shutil.copy2`/`shutil.copytree` copy the blob at the source path to the
target path; `shutil.rmtree` removes the entry.  `mkdir` calls have no
effect on the map. -/
def FS : Type := String → Option String

/-- Write (or remove, with `none`) the entry at path `p`. -/
def fs_set (fs : FS) (p : String) (v : Option String) : FS :=
  fun q => if q = p then v else fs q

/-- A row of the `backup_points` table (`rollback_manager.py` lines 46-57);
`backup_id` is declared UNIQUE.  `services` and `data_paths` are stored as
JSON in the source and modelled structurally. -/
structure BackupRow where
  backup_id : String
  timestamp : String
  description : String
  services : List String
  config_backup_path : Option String
  data_paths : List (String × String)
  created_at : String

/-- A row of the append-only `rollback_log` table (`rollback_manager.py`
lines 60-68); the JSON `details` payload
`{'restored': success_count, 'failed': failed_services}` is modelled
structurally as the last two fields. -/
structure LogRow where
  backup_id : String
  rollback_timestamp : String
  success : Bool
  restored : Nat
  failed : List String
  deriving DecidableEq, Repr

/-- The state a `RollbackManager` acts on: the filesystem and the two
database tables. -/
structure RbState where
  fs : FS
  backup_points : List BackupRow
  rollback_log : List LogRow

/-- Ambient environment: the home directory (`Path.home()`), the manager's
`backup_dir`, and oracles for the subprocess calls whose failures the source
catches: `docker export` during backup and `_start_service` during
rollback.  (`_stop_service`/`_remove_service` touch processes, not the
filesystem map, and their exceptions are caught, so they need no oracle.) -/
structure RbEnv where
  home : String
  backup_dir : String
  docker_export_ok : String → Bool
  start_ok : String → Bool

/-- Embedding of `RollbackManager._get_service_data_path`
(`rollback_manager.py` lines 305-315). -/
def get_service_data_path (home : String) : String → Option String
  | "adguard" => some (home ++ "/adguardhome")
  | "jellyfin" => some (home ++ "/home-server-data/jellyfin")
  | "immich" => some (home ++ "/home-server-data/immich")
  | "tailscale" => some "/var/lib/tailscale"
  | "openclaw" => some (home ++ "/.openclaw")
  | _ => none

/-- Embedding of `RollbackManager._is_docker_service` (`rollback_manager.py`
lines 317-319). -/
def is_docker_service (s : String) : Bool :=
  s == "adguard" || s == "jellyfin" || s == "immich"

/-- The backup identifier `"backup_" + strftime(...)` (`rollback_manager.py`
line 84). -/
def backup_id_of (now : String) : String := "backup_" ++ now

/-- `backup_path = self.backup_dir / backup_id` (line 85). -/
def backup_path_of (env : RbEnv) (now : String) : String :=
  env.backup_dir ++ "/" ++ backup_id_of now

/-- The configuration snapshot target `backup_path / "config.json"` (line 96). -/
def config_backup_path_of (env : RbEnv) (now : String) : String :=
  backup_path_of env now ++ "/config.json"

/-- The per-service data snapshot target `backup_path / f"{service}_data"`
(line 103). -/
def data_backup_path_of (env : RbEnv) (now service : String) : String :=
  backup_path_of env now ++ "/" ++ service ++ "_data"

/-- The container export target `backup_path / f"{service}_container.tar"`
(line 115). -/
def container_backup_path_of (env : RbEnv) (now service : String) : String :=
  backup_path_of env now ++ "/" ++ service ++ "_container.tar"

/-- Embedding of `RollbackManager.create_backup` (`rollback_manager.py`
lines 73-141).  `now` stands for the strftime/isoformat timestamps taken at
entry (merged: only their role as an identifier matters).  Config and
per-service data are copied into the fresh backup directory when their
source paths exist (`os.path.exists` guards); a `docker export` failure is
caught and skipped, leaving no `data_paths` entry, exactly as the source's
`except` blocks do.  The `backup_points` row is appended last. -/
def create_backup (env : RbEnv) (st : RbState) (services : List String)
    (description now : String) : String × RbState :=
  let cfg :=
    match st.fs "config.json" with
    | some c => (fs_set st.fs (config_backup_path_of env now) (some c),
                 some (config_backup_path_of env now))
    | none => (st.fs, none)
  let data1 := services.foldl
    (fun (acc : FS × List (String × String)) service =>
      match get_service_data_path env.home service with
      | some p =>
        match acc.1 p with
        | some c =>
          (fs_set acc.1 (data_backup_path_of env now service) (some c),
           acc.2 ++ [(service, data_backup_path_of env now service)])
        | none => acc
      | none => acc)
    (cfg.1, [])
  let data2 := services.foldl
    (fun (acc : FS × List (String × String)) service =>
      if is_docker_service service && env.docker_export_ok service then
        (fs_set acc.1 (container_backup_path_of env now service)
           (some ("export:" ++ service)),
         acc.2 ++ [(service ++ "_container", container_backup_path_of env now service)])
      else acc)
    data1
  let row : BackupRow :=
    { backup_id := backup_id_of now, timestamp := now, description := description,
      services := services, config_backup_path := cfg.2,
      data_paths := data2.2, created_at := now }
  (backup_id_of now, { st with fs := data2.1, backup_points := st.backup_points ++ [row] })

/-- Embedding of `RollbackManager.rollback` (`rollback_manager.py` lines
143-252).  `answer` is the reply to the confirmation prompt (`.strip().lower()`
compared against `y`).  Stopping/removing services are subprocess calls with
caught exceptions and no filesystem effect; the Docker container restore is
a no-op in the source (log line only).  Data restore follows the source
order: delete the live directory if present, then copy the snapshot; a
missing snapshot makes the copy raise, which the source catches, recording
the service as failed (after the delete already happened).  Restart
failures (the `start_ok` oracle) extend `failed_services`.  The log row is
appended before the return in both the partial-failure and success paths;
the not-found and user-declined paths return earlier, before the log
insert. -/
def rollback (env : RbEnv) (st : RbState) (backup_id : String)
    (confirm : Bool) (answer : String) (now : String) : (Bool × String) × RbState :=
  match st.backup_points.find? (fun r => r.backup_id == backup_id) with
  | none => ((false, "Backup " ++ backup_id ++ " not found"), st)
  | some row =>
    if confirm && !(pyLower (pyStrip answer) == "y") then
      ((false, "Rollback cancelled by user"), st)
    else
      let fs1 :=
        match row.config_backup_path with
        | some p =>
          match st.fs p with
          | some c => fs_set st.fs "config.json" (some c)
          | none => st.fs
        | none => st.fs
      let restored := row.services.foldl
        (fun (acc : FS × Nat × List String) service =>
          match List.lookup service row.data_paths with
          | none => acc
          | some bpath =>
            match get_service_data_path env.home service with
            | none => acc
            | some p =>
              let fsr := if (acc.1 p).isSome then fs_set acc.1 p none else acc.1
              match fsr bpath with
              | some c => (fs_set fsr p (some c), acc.2.1 + 1, acc.2.2)
              | none => (fsr, acc.2.1, acc.2.2 ++ [service]))
        (fs1, 0, [])
      let failed2 := row.services.foldl
        (fun (acc : List String) service =>
          if acc.contains service then acc
          else if env.start_ok service then acc else acc ++ [service])
        restored.2.2
      let log_row : LogRow :=
        { backup_id := backup_id, rollback_timestamp := now,
          success := failed2 == [], restored := restored.2.1, failed := failed2 }
      let st' : RbState :=
        { fs := restored.1, backup_points := st.backup_points,
          rollback_log := st.rollback_log ++ [log_row] }
      if failed2 == [] then
        ((true, "Successfully rolled back to " ++ backup_id), st')
      else
        ((false, "Rollback partially failed. Failed services: "
            ++ String.intercalate ", " failed2), st')

end RollbackM

/-! ## Shared helper lemmas -/

theorem find?_cons_true {α : Type} (p : α → Bool) (a : α) (l : List α)
    (h : p a = true) : (a :: l).find? p = some a := by
  simp [List.find?, h]

theorem find?_cons_false {α : Type} (p : α → Bool) (a : α) (l : List α)
    (h : p a = false) : (a :: l).find? p = l.find? p := by
  simp [List.find?, h]

/-! ## C9: the Analyzer never raises -/

/-- C9: `analyze_error` is total.  For every input and every behavior of the
external classifier — absent, raising, timing out, returning empty content,
malformed JSON, or a non-dict value — it returns a `Diagnosis` (falling back
to the pattern table where needed) and never lets an exception reach the
caller. -/
theorem analyze_error_total (client : Option ErrorRecovery.GptBehavior)
    (command stdout stderr : String) :
    ∃ d, (ErrorRecovery.analyze_error client command stdout stderr).1 = .ok d := by
  cases client with
  | none => exact ⟨_, rfl⟩
  | some g => cases g <;> exact ⟨_, rfl⟩

/-! ## C4: the fallback pattern table -/

/-- C4 as frozen is false on the code: the table pattern is
"bind: address already in use", so a combined output containing bare
"address already in use" (command mentioning neither docker, 53, adguard nor
apt) falls through to the generic diagnosis with
fix_type = manual_intervention, not modify_command. -/
theorem fallback_address_in_use_not_modify_command :
    pyIn "address already in use"
        (ErrorRecovery.combined_output "" "address already in use") = true
    ∧ (ErrorRecovery.fallback_analyze "x" "" "address already in use").fix_type
        = "manual_intervention"
    ∧ (ErrorRecovery.analyze_error none "x" "" "address already in use").1
        = .ok (ErrorRecovery.fallback_analyze "x" "" "address already in use") := by
  exact ⟨by decide, by decide, rfl⟩

/-- C4 (amended): with no external classifier configured, `analyze_error`
attempts no external call and deterministically returns the fallback-table
diagnosis of the (truncated) inputs.  On the lowercased combined output
(stderr then stdout) the table maps: "permission denied" — when the earlier
table pattern "command not found" is absent — to modify_command with
can_auto_retry = true; the table pattern "bind: address already in use" —
when no earlier table pattern matches — to modify_command; and
"no space left" to manual_intervention with severity critical, provided no
table pattern matches, the command does not mention docker (that branch
precedes the disk branch), the port-53 branch does not fire, and no
network-error pattern is present. -/
theorem analyze_error_fallback_table (command stdout stderr : String) :
    (ErrorRecovery.analyze_error none command stdout stderr
      = (.ok (ErrorRecovery.fallback_analyze (pyTake 5000 command)
          (pyTake 5000 stdout) (pyTake 5000 stderr)), 0))
    ∧ (pyIn "permission denied" (ErrorRecovery.combined_output stdout stderr) = true →
       pyIn "command not found" (ErrorRecovery.combined_output stdout stderr) = false →
       (ErrorRecovery.fallback_analyze command stdout stderr).fix_type = "modify_command"
         ∧ (ErrorRecovery.fallback_analyze command stdout stderr).can_auto_retry = true)
    ∧ (pyIn "bind: address already in use" (ErrorRecovery.combined_output stdout stderr) = true →
       pyIn "command not found" (ErrorRecovery.combined_output stdout stderr) = false →
       pyIn "permission denied" (ErrorRecovery.combined_output stdout stderr) = false →
       pyIn "could not resolve host" (ErrorRecovery.combined_output stdout stderr) = false →
       pyIn "port is already allocated" (ErrorRecovery.combined_output stdout stderr) = false →
       (ErrorRecovery.fallback_analyze command stdout stderr).fix_type = "modify_command")
    ∧ (pyIn "no space left" (ErrorRecovery.combined_output stdout stderr) = true →
       (∀ it ∈ ErrorRecovery.common_fixes,
          pyIn it.1 (ErrorRecovery.combined_output stdout stderr) = false) →
       pyIn "docker" (pyLower command) = false →
       ((pyIn "53" command || pyIn "adguard" (pyLower command))
          && (pyIn "bind" (ErrorRecovery.combined_output stdout stderr)
              || pyIn "address already in use" (ErrorRecovery.combined_output stdout stderr))) = false →
       pyIn "connection refused" (ErrorRecovery.combined_output stdout stderr) = false →
       pyIn "connection timed out" (ErrorRecovery.combined_output stdout stderr) = false →
       (ErrorRecovery.fallback_analyze command stdout stderr).severity = "critical"
         ∧ (ErrorRecovery.fallback_analyze command stdout stderr).fix_type = "manual_intervention") := by
  refine ⟨rfl, ?_, ?_, ?_⟩
  · intro h1 h2
    have hfind : ErrorRecovery.common_fixes.find?
        (fun it => pyIn it.1 (ErrorRecovery.combined_output stdout stderr))
        = some ("permission denied", "modify_command", "Try running with sudo") := by
      simp only [ErrorRecovery.common_fixes]
      rw [find?_cons_false _ _ _ (by simpa using h2),
          find?_cons_true _ _ _ (by simpa using h1)]
    constructor <;> simp [ErrorRecovery.fallback_analyze, hfind]
  · intro h1 h2 h3 h4 h5
    have hfind : ErrorRecovery.common_fixes.find?
        (fun it => pyIn it.1 (ErrorRecovery.combined_output stdout stderr))
        = some ("bind: address already in use", "modify_command",
            "Port in use - check with: sudo lsof -i :PORT") := by
      simp only [ErrorRecovery.common_fixes]
      rw [find?_cons_false _ _ _ (by simpa using h2),
          find?_cons_false _ _ _ (by simpa using h3),
          find?_cons_false _ _ _ (by simpa using h4),
          find?_cons_false _ _ _ (by simpa using h5),
          find?_cons_true _ _ _ (by simpa using h1)]
    simp [ErrorRecovery.fallback_analyze, hfind]
  · intro h1 hall h3 h4 h5 h6
    have hfind : ErrorRecovery.common_fixes.find?
        (fun it => pyIn it.1 (ErrorRecovery.combined_output stdout stderr)) = none :=
      List.find?_eq_none.mpr (fun x hx => by simp [hall x hx])
    constructor <;>
      simp [ErrorRecovery.fallback_analyze, hfind, h1, h3, h4, h5, h6]

/-- Witness for `analyze_error_fallback_table`: the three table rows at
concrete inputs (among them the spec example
`analyze(cmd, "", "permission denied")`). -/
theorem analyze_error_fallback_table_witness :
    ((ErrorRecovery.fallback_analyze "c" "" "permission denied").fix_type = "modify_command"
      ∧ (ErrorRecovery.fallback_analyze "c" "" "permission denied").can_auto_retry = true)
    ∧ (ErrorRecovery.fallback_analyze "c" "" "bind: address already in use").fix_type
        = "modify_command"
    ∧ ((ErrorRecovery.fallback_analyze "c" "" "no space left").severity = "critical"
      ∧ (ErrorRecovery.fallback_analyze "c" "" "no space left").fix_type
          = "manual_intervention") := by
  refine ⟨?_, ?_, ?_⟩
  · exact (analyze_error_fallback_table "c" "" "permission denied").2.1
      (by decide) (by decide)
  · exact (analyze_error_fallback_table "c" "" "bind: address already in use").2.2.1
      (by decide) (by decide) (by decide) (by decide) (by decide)
  · exact (analyze_error_fallback_table "c" "" "no space left").2.2.2
      (by decide) (by decide) (by decide) (by decide) (by decide) (by decide)

/-! ## C5: retry-with-backoff counts -/

theorem retry_go_all_fail {E A : Type} (retriable : E → Bool) (f : Nat → Except E A) :
    ∀ (left attempt sleeps : Nat),
      (∀ i, attempt ≤ i → i ≤ attempt + left →
        ∃ e, f i = .error e ∧ retriable e = true) →
      ∃ e, f (attempt + left) = .error e ∧
        RetryUtils.retry_go retriable f left attempt sleeps
          = (.error e, attempt + left + 1, sleeps + left) := by
  intro left
  induction left with
  | zero =>
    intro attempt sleeps h
    obtain ⟨e, he, _⟩ := h attempt le_rfl (by omega)
    exact ⟨e, by simpa using he, by simp [RetryUtils.retry_go, he]⟩
  | succ n ih =>
    intro attempt sleeps h
    obtain ⟨e, he, hr⟩ := h attempt le_rfl (by omega)
    obtain ⟨e', he', hgo⟩ := ih (attempt + 1) (sleeps + 1)
      (fun i h1 h2 => h i (by omega) (by omega))
    have h1 : attempt + 1 + n = attempt + (n + 1) := by omega
    have h2 : sleeps + 1 + n = sleeps + (n + 1) := by omega
    rw [h1] at he' hgo
    rw [h2] at hgo
    refine ⟨e', he', ?_⟩
    simp only [RetryUtils.retry_go, he, hr, if_true]
    exact hgo

/-- C5: for a wrapped call whose every invocation fails with a retriable
failure kind, `retry_with_backoff` invokes it exactly `max_retries + 1`
times (sleeping between consecutive invocations) and propagates the failure
of the last invocation; a non-retriable failure propagates immediately after
a single invocation with no sleeping. -/
theorem retry_with_backoff_spec {E A : Type} (maxRetries : Nat)
    (retriable : E → Bool) (f : Nat → Except E A) :
    ((∀ i, i ≤ maxRetries → ∃ e, f i = .error e ∧ retriable e = true) →
      ∃ e, f maxRetries = .error e ∧
        RetryUtils.retry_with_backoff maxRetries retriable f
          = (.error e, maxRetries + 1, maxRetries))
    ∧ (∀ e, f 0 = .error e → retriable e = false →
        RetryUtils.retry_with_backoff maxRetries retriable f = (.error e, 1, 0)) := by
  constructor
  · intro h
    have := retry_go_all_fail retriable f maxRetries 0 0
      (fun i h1 h2 => h i (by omega))
    simpa [RetryUtils.retry_with_backoff] using this
  · intro e he hr
    cases maxRetries with
    | zero => simp [RetryUtils.retry_with_backoff, RetryUtils.retry_go, he]
    | succ n => simp [RetryUtils.retry_with_backoff, RetryUtils.retry_go, he, hr]

/-- Witness for `retry_with_backoff_spec` at `max_retries = 2`: a permanently
failing retriable call is invoked exactly 3 times with 2 sleeps and the last
failure propagates; a non-retriable failure propagates after 1 invocation
with 0 sleeps. -/
theorem retry_with_backoff_spec_witness :
    RetryUtils.retry_with_backoff 2 (fun e => e == "transient")
        (fun _ => (.error "transient" : Except String Nat))
      = (.error "transient", 3, 2)
    ∧ RetryUtils.retry_with_backoff 2 (fun e => e == "transient")
        (fun _ => (.error "fatal" : Except String Nat))
      = (.error "fatal", 1, 0) := by
  constructor
  · obtain ⟨e, he, hr⟩ := (retry_with_backoff_spec 2 (fun e => e == "transient")
      (fun _ => (.error "transient" : Except String Nat))).1
      (fun i _ => ⟨"transient", rfl, by decide⟩)
    injection he with h
    subst h
    exact hr
  · exact (retry_with_backoff_spec 2 (fun e => e == "transient")
      (fun _ => (.error "fatal" : Except String Nat))).2 "fatal" rfl (by decide)

/-! ## C1: circuit breaker in the Open state -/

/-- C1 concerns a code bug: in the reachable `OPEN` state (`_last_failure_time`
is set, as `_on_failure` always sets it when opening the circuit), every
`call` — whether made before or after `recovery_timeout` would have elapsed —
raises `AttributeError` from `_should_attempt_reset` reading the never-assigned
`self.recovery_timeout` (the constructor stores `self._recovery_timeout`),
contradicting the docstring of `call` (`Raises: CircuitBreakerOpen: if circuit
is open`): the call neither raises `CircuitBreakerOpen`, nor moves the breaker
to `HALF_OPEN`, nor ever invokes the wrapped function, and the state is
unchanged.  Shown below at time 10 (before the 60s timeout since the last
failure at 0) and at time 1000 (after it). -/
theorem circuit_breaker_open_call_attribute_error :
    CircuitBreakerM.call CircuitBreakerM.openBreaker 10 (.ok (1 : Nat))
      = (.error .attributeError, CircuitBreakerM.openBreaker, false)
    ∧ CircuitBreakerM.call CircuitBreakerM.openBreaker 1000 (.ok (1 : Nat))
      = (.error .attributeError, CircuitBreakerM.openBreaker, false) :=
  ⟨rfl, rfl⟩

/-! ## C10: create_session replaces the row, resets defaults, leaves the step log alone -/

theorem find?_filter_append_self (sid : String) (new : Executor.SessionRow)
    (hnew : (new.session_id == sid) = true) :
    ∀ l : List Executor.SessionRow,
      ((l.filter (fun r => !(r.session_id == sid))) ++ [new]).find?
          (fun r => r.session_id == sid)
        = some new := by
  intro l
  induction l with
  | nil => exact find?_cons_true _ _ _ hnew
  | cons a l ih =>
    cases h : a.session_id == sid with
    | true => simpa [List.filter_cons, h] using ih
    | false =>
      rw [List.filter_cons]
      simp only [h, Bool.not_false, if_true, List.cons_append]
      rw [find?_cons_false (fun r => r.session_id == sid) a _ h]
      exact ih

/-- C10: calling `create_session` with an id already present replaces the
existing sessions row — the row subsequently read for that id has
`current_step = 0`, `status = in_progress`, and the fresh `created_at`
timestamp — while the append-only `execution_state` table is untouched. -/
theorem create_session_upsert_frame (db : Executor.Db) (now sid h r p : String) :
    ((Executor.create_session db now sid h r p).sessions.find?
        (fun row => row.session_id == sid))
      = some { session_id := sid, hardware_profile := h, user_requirements := r,
               plan_json := p, current_step := 0, status := "in_progress",
               created_at := now, updated_at := now }
    ∧ (Executor.create_session db now sid h r p).execution_state
        = db.execution_state := by
  refine ⟨?_, rfl⟩
  exact find?_filter_append_self sid _ (by simp) db.sessions

/-! ## C7: the rollback log -/

/-- C7 as frozen is false on the code: a rollback attempt whose backup id is
not found returns before the `rollback_log` insert and appends nothing (the
user-declined confirmation path returns even earlier, likewise appending
nothing). -/
theorem rollback_not_found_appends_nothing :
    (RollbackM.rollback
        { home := "/h", backup_dir := "/b",
          docker_export_ok := fun _ => true, start_ok := fun _ => true }
        { fs := fun _ => none, backup_points := [], rollback_log := [] }
        "b1" false "" "t").2.rollback_log = []
    ∧ (RollbackM.rollback
        { home := "/h", backup_dir := "/b",
          docker_export_ok := fun _ => true, start_ok := fun _ => true }
        { fs := fun _ => none, backup_points := [], rollback_log := [] }
        "b1" false "" "t").1.1 = false :=
  ⟨rfl, rfl⟩

/-- C7 (amended): a rollback attempt that passes backup lookup and the
confirmation prompt appends exactly one entry to the rollback log, whether
the restore fully succeeds or partially fails; an attempt that ends with
backup-not-found, or with a declined confirmation, appends no entry. -/
theorem rollback_log_spec (env : RollbackM.RbEnv) (st : RollbackM.RbState)
    (backup_id : String) (confirm : Bool) (answer now : String) :
    (st.backup_points.find? (fun r => r.backup_id == backup_id) = none →
      (RollbackM.rollback env st backup_id confirm answer now).2.rollback_log
        = st.rollback_log)
    ∧ (∀ row, st.backup_points.find? (fun r => r.backup_id == backup_id) = some row →
        confirm = true → (pyLower (pyStrip answer) == "y") = false →
        (RollbackM.rollback env st backup_id confirm answer now).2.rollback_log
          = st.rollback_log)
    ∧ (∀ row, st.backup_points.find? (fun r => r.backup_id == backup_id) = some row →
        (confirm = false ∨ (pyLower (pyStrip answer) == "y") = true) →
        (RollbackM.rollback env st backup_id confirm answer now).2.rollback_log.length
          = st.rollback_log.length + 1) := by
  refine ⟨?_, ?_, ?_⟩
  · intro h
    simp [RollbackM.rollback, h]
  · intro row h hc ha
    simp [RollbackM.rollback, h, hc, ha]
  · intro row h hca
    have hcond : (confirm && !(pyLower (pyStrip answer) == "y")) = false := by
      rcases hca with hc | ha
      · simp [hc]
      · simp [ha]
    simp only [RollbackM.rollback, h, hcond, Bool.false_eq_true, if_false]
    split <;> simp

/-- Witness for `rollback_log_spec`: on a state holding one backup point
(services empty), a non-interactive rollback of that backup appends exactly
one log entry, and a rollback of an unknown id appends none. -/
theorem rollback_log_spec_witness :
    (RollbackM.rollback
        { home := "/h", backup_dir := "/b",
          docker_export_ok := fun _ => true, start_ok := fun _ => true }
        { fs := fun _ => none,
          backup_points := [{ backup_id := "b", timestamp := "t", description := "",
                              services := [], config_backup_path := none,
                              data_paths := [], created_at := "t" }],
          rollback_log := [] }
        "b" false "" "t2").2.rollback_log.length = 1
    ∧ (RollbackM.rollback
        { home := "/h", backup_dir := "/b",
          docker_export_ok := fun _ => true, start_ok := fun _ => true }
        { fs := fun _ => none,
          backup_points := [{ backup_id := "b", timestamp := "t", description := "",
                              services := [], config_backup_path := none,
                              data_paths := [], created_at := "t" }],
          rollback_log := [] }
        "nope" false "" "t2").2.rollback_log = [] := by
  constructor
  · exact (rollback_log_spec
      { home := "/h", backup_dir := "/b",
        docker_export_ok := fun _ => true, start_ok := fun _ => true }
      { fs := fun _ => none,
        backup_points := [{ backup_id := "b", timestamp := "t", description := "",
                            services := [], config_backup_path := none,
                            data_paths := [], created_at := "t" }],
        rollback_log := [] }
      "b" false "" "t2").2.2
      { backup_id := "b", timestamp := "t", description := "",
        services := [], config_backup_path := none,
        data_paths := [], created_at := "t" }
      rfl (Or.inl rfl)
  · exact (rollback_log_spec
      { home := "/h", backup_dir := "/b",
        docker_export_ok := fun _ => true, start_ok := fun _ => true }
      { fs := fun _ => none,
        backup_points := [{ backup_id := "b", timestamp := "t", description := "",
                            services := [], config_backup_path := none,
                            data_paths := [], created_at := "t" }],
        rollback_log := [] }
      "nope" false "" "t2").1 rfl

/-! ## C6: fail-closed validation in execute_step -/

/-- C6 as frozen is false on the code: `execute_step` validates each command
just before spawning it, so in a step whose assembled list is
`[echo hi, mkfs]` the deny-listed `mkfs` makes the step fail — but only
after `echo hi` has already been spawned, contradicting "without executing
any of the step's commands". -/
theorem execute_step_runs_commands_before_rejection :
    Executor.execute_step
        { dry_run := false, auto_approve := true, sudo_answer := "",
          run := fun _ => { success := true, returncode := 0, stdout := "", stderr := "" } }
        { step_number := some 1, name := "t", command := "echo hi",
          commands := ["mkfs"], requires_sudo := false, check_command := "" }
      = { result := { success := false, returncode := -1, stdout := "",
                      stderr := "Validation failed: Command contains dangerous pattern: mkfs" },
          events := [Executor.CmdEv.main "echo hi"], status := "failed" }
    ∧ (Executor.validate_command "mkfs").1 = false :=
  ⟨rfl, rfl⟩

theorem step_loop_mains_valid (env : Executor.StepEnv) (step : Executor.PlanStep) :
    ∀ (cmds : List String) (last : Executor.ExecutionResult)
      (evs : List Executor.CmdEv) (c : String),
      Executor.CmdEv.main c ∈ (Executor.step_cmd_loop env step cmds last evs).events →
      Executor.CmdEv.main c ∈ evs ∨ (Executor.validate_command c).1 = true := by
  intro cmds
  induction cmds with
  | nil =>
    intro last evs c h
    simp only [Executor.step_cmd_loop] at h
    split at h
    · rcases List.mem_append.mp h with h' | h'
      · exact Or.inl h'
      · simp at h'
    · exact Or.inl h
  | cons cmd rest ih =>
    intro last evs c h
    simp only [Executor.step_cmd_loop] at h
    split at h
    · exact Or.inl h
    · split at h
      · exact Or.inl h
      · split at h
        · rcases ih _ _ c h with h' | h'
          · exact Or.inl h'
          · exact Or.inr h'
        · rename_i hv _ _
          have hv' : (Executor.validate_command cmd).1 = true := by
            simpa using hv
          split at h
          · rcases List.mem_append.mp h with h' | h'
            · exact Or.inl h'
            · simp at h'
              rw [h']
              exact Or.inr hv'
          · rcases ih _ _ c h with h' | h'
            · rcases List.mem_append.mp h' with h'' | h''
              · exact Or.inl h''
              · simp at h''
                rw [h'']
                exact Or.inr hv'
            · exact Or.inr h'

theorem step_loop_invalid_fails (env : Executor.StepEnv) (step : Executor.PlanStep) :
    ∀ (cmds : List String) (last : Executor.ExecutionResult)
      (evs : List Executor.CmdEv),
      (∃ c ∈ cmds, (Executor.validate_command c).1 = false) →
      (Executor.step_cmd_loop env step cmds last evs).result.success = false := by
  intro cmds
  induction cmds with
  | nil =>
    intro last evs h
    obtain ⟨c, hc, _⟩ := h
    simp at hc
  | cons cmd rest ih =>
    intro last evs h
    obtain ⟨c, hc, hcv⟩ := h
    simp only [Executor.step_cmd_loop]
    split
    · rfl
    · rename_i hv
      have hv' : (Executor.validate_command cmd).1 = true := by simpa using hv
      have hcrest : c ∈ rest := by
        rcases List.mem_cons.mp hc with h' | h'
        · rw [h'] at hcv; rw [hv'] at hcv; cases hcv
        · exact h'
      split
      · rfl
      · split
        · exact ih _ _ ⟨c, hcrest, hcv⟩
        · split
          · rename_i hr
            simpa using hr
          · exact ih _ _ ⟨c, hcrest, hcv⟩

theorem step_loop_mains_take (env : Executor.StepEnv) (step : Executor.PlanStep)
    (hdry : env.dry_run = false) :
    ∀ (cmds : List String) (last : Executor.ExecutionResult)
      (evs : List Executor.CmdEv),
      ∃ k, Executor.main_cmds (Executor.step_cmd_loop env step cmds last evs).events
        = Executor.main_cmds evs ++ cmds.take k := by
  intro cmds
  induction cmds with
  | nil =>
    intro last evs
    refine ⟨0, ?_⟩
    simp only [Executor.step_cmd_loop]
    split
    · simp [Executor.main_cmds]
    · simp [Executor.main_cmds]
  | cons cmd rest ih =>
    intro last evs
    simp only [Executor.step_cmd_loop]
    split
    · exact ⟨0, by simp⟩
    · split
      · exact ⟨0, by simp⟩
      · split
        · rename_i hd
          rw [hdry] at hd
          cases hd
        · split
          · refine ⟨1, ?_⟩
            simp [Executor.main_cmds, List.filterMap_append]
          · obtain ⟨k, hk⟩ := ih (env.run cmd) (evs ++ [Executor.CmdEv.main cmd])
            refine ⟨k + 1, ?_⟩
            rw [hk]
            simp [Executor.main_cmds, List.filterMap_append]

/-- C6 (amended): validation itself never executes anything and an empty or
deny-listed command is never spawned — every command spawned by
`execute_step` passed `validate_command`, and (outside dry-run) the spawned
commands are an initial segment of the step's assembled command list; if the
assembled list contains an empty or deny-listed command the step's result is
failed.  (Commands of the step before the offending one have however
already run, and a step whose only command text sits in a falsy `command`
key assembles an empty list and completes successfully.) -/
theorem execute_step_fail_closed (env : Executor.StepEnv) (step : Executor.PlanStep) :
    (∀ c, Executor.CmdEv.main c ∈ (Executor.execute_step env step).events →
        (Executor.validate_command c).1 = true)
    ∧ ((∃ c ∈ Executor.step_commands step, (Executor.validate_command c).1 = false) →
        (Executor.execute_step env step).result.success = false)
    ∧ (env.dry_run = false →
        ∃ k, Executor.main_cmds (Executor.execute_step env step).events
          = (Executor.step_commands step).take k) := by
  refine ⟨?_, ?_, ?_⟩
  · intro c h
    rcases hsc : Executor.step_commands step with _ | ⟨cmd, rest⟩
    · rw [Executor.execute_step, hsc] at h
      simp at h
    · rw [Executor.execute_step, hsc] at h
      rcases step_loop_mains_valid env step _ _ _ c h with h' | h'
      · simp at h'
      · exact h'
  · intro h
    rcases hsc : Executor.step_commands step with _ | ⟨cmd, rest⟩
    · rw [hsc] at h
      obtain ⟨c, hc, _⟩ := h
      simp at hc
    · rw [hsc] at h
      rw [Executor.execute_step, hsc]
      exact step_loop_invalid_fails env step _ _ _ h
  · intro hdry
    rcases hsc : Executor.step_commands step with _ | ⟨cmd, rest⟩
    · rw [Executor.execute_step, hsc]
      exact ⟨0, by simp [Executor.main_cmds]⟩
    · rw [Executor.execute_step, hsc]
      obtain ⟨k, hk⟩ := step_loop_mains_take env step hdry (cmd :: rest)
        { success := true, returncode := 0, stdout := "", stderr := "" } []
      refine ⟨k, ?_⟩
      rw [hk]
      simp [Executor.main_cmds]

/-- Witness for `execute_step_fail_closed`: a step assembling
`[echo a, ""]` — the spawned `echo a` passed validation, the step fails on
the empty command, and the spawned commands are an initial segment of the
assembled list. -/
theorem execute_step_fail_closed_witness :
    (Executor.validate_command "echo a").1 = true
    ∧ (Executor.execute_step
        { dry_run := false, auto_approve := true, sudo_answer := "",
          run := fun _ => { success := true, returncode := 0, stdout := "", stderr := "" } }
        { step_number := some 1, name := "t", command := "echo a",
          commands := [""], requires_sudo := false,
          check_command := "" }).result.success = false
    ∧ ∃ k, Executor.main_cmds (Executor.execute_step
        { dry_run := false, auto_approve := true, sudo_answer := "",
          run := fun _ => { success := true, returncode := 0, stdout := "", stderr := "" } }
        { step_number := some 1, name := "t", command := "echo a",
          commands := [""], requires_sudo := false,
          check_command := "" }).events
      = (Executor.step_commands
          { step_number := some 1, name := "t", command := "echo a",
            commands := [""], requires_sudo := false,
            check_command := "" }).take k := by
  refine ⟨?_, ?_, ?_⟩
  · exact (execute_step_fail_closed
      { dry_run := false, auto_approve := true, sudo_answer := "",
        run := fun _ => { success := true, returncode := 0, stdout := "", stderr := "" } }
      { step_number := some 1, name := "t", command := "echo a",
        commands := [""], requires_sudo := false, check_command := "" }).1
      "echo a" (by decide)
  · exact (execute_step_fail_closed
      { dry_run := false, auto_approve := true, sudo_answer := "",
        run := fun _ => { success := true, returncode := 0, stdout := "", stderr := "" } }
      { step_number := some 1, name := "t", command := "echo a",
        commands := [""], requires_sudo := false, check_command := "" }).2.1
      ⟨"", by decide, by decide⟩
  · exact (execute_step_fail_closed
      { dry_run := false, auto_approve := true, sudo_answer := "",
        run := fun _ => { success := true, returncode := 0, stdout := "", stderr := "" } }
      { step_number := some 1, name := "t", command := "echo a",
        commands := [""], requires_sudo := false, check_command := "" }).2.2 rfl

/-! ## C2 and C3: the execute_plan loop -/


/-! ## C2 and C3: the execute_plan loop -/

theorem recovery_ev_idx (env : Executor.PlanEnv) (i n : Nat)
    (step : Executor.PlanStep) (r : Executor.ExecutionResult) :
    ∀ ev ∈ (Executor.recovery_events env i n step r).1, ev.idx = i := by
  intro ev h
  simp only [Executor.recovery_events] at h
  split at h
  · simp at h
  · split at h
    · split at h
      · split at h
        · simp at h
          rcases h with h | h
          · rw [h]; rfl
          · rw [h]; rfl
        · simp at h
          rw [h]; rfl
      · simp at h
    · simp at h

theorem recovery_fix_mem (env : Executor.PlanEnv) (i n : Nat)
    (step : Executor.PlanStep) (r : Executor.ExecutionResult)
    (i' : Nat) (a' : ErrorRecovery.Diagnosis) :
    Executor.PlanEv.fix i' a' ∈ (Executor.recovery_events env i n step r).1 →
    i' = i ∧ a' = env.analyze (Executor.plan_command step) r.stdout r.stderr
      ∧ a'.can_auto_retry = true ∧ env.dry_run = false
      ∧ Executor.fix_accepted env = true ∧ env.has_session = true := by
  intro h
  simp only [Executor.recovery_events] at h
  split at h
  · simp at h
  · rename_i hs
    have hs' : env.has_session = true := by simpa using hs
    split at h
    · rename_i hca
      rw [Bool.and_eq_true] at hca
      have hdry : env.dry_run = false := by simpa using hca.2
      split at h
      · rename_i hacc
        split at h
        · simp only [List.mem_cons, List.not_mem_nil, or_false,
            Executor.PlanEv.fix.injEq] at h
          rcases h with ⟨h1, h2⟩ | h
          · exact ⟨h1, h2, h2 ▸ hca.1, hdry, hacc, hs'⟩
          · cases h
        · simp only [List.mem_cons, List.not_mem_nil, or_false,
            Executor.PlanEv.fix.injEq] at h
          exact ⟨h.1, h.2, h.2 ▸ hca.1, hdry, hacc, hs'⟩
      · simp at h
    · simp at h

theorem recovery_exec_mem (env : Executor.PlanEnv) (i n : Nat)
    (step : Executor.PlanStep) (r : Executor.ExecutionResult) (j m k : Nat) :
    Executor.PlanEv.exec j m k ∈ (Executor.recovery_events env i n step r).1 →
    j = i ∧ m = n ∧ k = 1 := by
  intro h
  simp only [Executor.recovery_events] at h
  split at h
  · simp at h
  · split at h
    · split at h
      · split at h
        · simp at h
          exact h
        · simp at h
      · simp at h
    · simp at h

theorem recovery_cont_true (env : Executor.PlanEnv) (i n : Nat)
    (step : Executor.PlanStep) (r : Executor.ExecutionResult) :
    (Executor.recovery_events env i n step r).2 = true →
    (Executor.recovery_events env i n step r).1
        = [Executor.PlanEv.fix i
            (env.analyze (Executor.plan_command step) r.stdout r.stderr),
           Executor.PlanEv.exec i n 1]
      ∧ (env.step_result i 1).success = true := by
  intro h
  simp only [Executor.recovery_events] at h ⊢
  split at h
  · cases h
  · rename_i h1
    split at h
    · rename_i h2
      split at h
      · rename_i h3
        split at h
        · rename_i h4
          rw [if_neg h1, if_pos h2, if_pos h3, if_pos h4]
          exact ⟨rfl, h⟩
        · cases h
      · cases h
    · cases h

theorem recovery_fix_success_exec (env : Executor.PlanEnv) (i n : Nat)
    (step : Executor.PlanStep) (r : Executor.ExecutionResult)
    (i' : Nat) (a' : ErrorRecovery.Diagnosis) :
    Executor.PlanEv.fix i' a' ∈ (Executor.recovery_events env i n step r).1 →
    (env.fix_result a'.suggested_fix).success = true →
    Executor.PlanEv.exec i n 1 ∈ (Executor.recovery_events env i n step r).1 := by
  intro h hfr
  simp only [Executor.recovery_events] at h ⊢
  split at h
  · simp at h
  · rename_i h1
    split at h
    · rename_i h2
      split at h
      · rename_i h3
        split at h
        · rename_i h4
          rw [if_neg h1, if_pos h2, if_pos h3, if_pos h4]
          simp
        · rename_i h4
          simp only [List.mem_cons, List.not_mem_nil, or_false,
            Executor.PlanEv.fix.injEq] at h
          rw [h.2] at hfr
          exact absurd hfr h4
      · simp at h
    · simp at h

theorem recovery_fix_fail_cont (env : Executor.PlanEnv) (i n : Nat)
    (step : Executor.PlanStep) (r : Executor.ExecutionResult)
    (i' : Nat) (a' : ErrorRecovery.Diagnosis) :
    Executor.PlanEv.fix i' a' ∈ (Executor.recovery_events env i n step r).1 →
    (env.fix_result a'.suggested_fix).success = false →
    (Executor.recovery_events env i n step r).2 = false := by
  intro h hfr
  simp only [Executor.recovery_events] at h ⊢
  split at h
  · simp at h
  · rename_i h1
    split at h
    · rename_i h2
      split at h
      · rename_i h3
        split at h
        · rename_i h4
          simp only [List.mem_cons, List.not_mem_nil, or_false,
            Executor.PlanEv.fix.injEq] at h
          rcases h with ⟨_, h5⟩ | h5
          · rw [h5] at hfr
            rw [hfr] at h4
            cases h4
          · cases h5
        · rename_i h4
          rw [if_neg h1, if_pos h2, if_pos h3, if_neg h4]
      · simp at h
    · simp at h

theorem recovery_exec_fail_cont (env : Executor.PlanEnv) (i n : Nat)
    (step : Executor.PlanStep) (r : Executor.ExecutionResult) (j m : Nat) :
    Executor.PlanEv.exec j m 1 ∈ (Executor.recovery_events env i n step r).1 →
    (env.step_result i 1).success = false →
    (Executor.recovery_events env i n step r).2 = false := by
  intro h hsr
  simp only [Executor.recovery_events] at h ⊢
  split at h
  · simp at h
  · rename_i h1
    split at h
    · rename_i h2
      split at h
      · rename_i h3
        split at h
        · rename_i h4
          rw [if_neg h1, if_pos h2, if_pos h3, if_pos h4]
          exact hsr
        · simp at h
      · simp at h
    · simp at h

theorem plan_loop_skip1 (env : Executor.PlanEnv) (completed : List Nat)
    (resume_from : Nat) (step : Executor.PlanStep) (rest : List Executor.PlanStep)
    (i0 : Nat) (h : completed.contains (step.step_number.getD i0) = true) :
    Executor.execute_plan_loop env completed resume_from (step :: rest) i0
      = Executor.execute_plan_loop env completed resume_from rest (i0 + 1) := by
  simp only [Executor.execute_plan_loop]
  rw [if_pos h]

theorem plan_loop_skip2 (env : Executor.PlanEnv) (completed : List Nat)
    (resume_from : Nat) (step : Executor.PlanStep) (rest : List Executor.PlanStep)
    (i0 : Nat) (h1 : completed.contains (step.step_number.getD i0) = false)
    (h2 : step.step_number.getD i0 < resume_from) :
    Executor.execute_plan_loop env completed resume_from (step :: rest) i0
      = Executor.execute_plan_loop env completed resume_from rest (i0 + 1) := by
  simp only [Executor.execute_plan_loop]
  rw [if_neg (by simpa using h1), if_pos h2]

theorem plan_loop_success (env : Executor.PlanEnv) (completed : List Nat)
    (resume_from : Nat) (step : Executor.PlanStep) (rest : List Executor.PlanStep)
    (i0 : Nat) (h1 : completed.contains (step.step_number.getD i0) = false)
    (h2 : ¬ step.step_number.getD i0 < resume_from)
    (h3 : (env.step_result i0 0).success = true) :
    Executor.execute_plan_loop env completed resume_from (step :: rest) i0
      = Executor.PlanEv.exec i0 (step.step_number.getD i0) 0
          :: Executor.execute_plan_loop env completed resume_from rest (i0 + 1) := by
  simp only [Executor.execute_plan_loop]
  rw [if_neg (by simpa using h1), if_neg h2, if_pos h3]

theorem plan_loop_rec_cont (env : Executor.PlanEnv) (completed : List Nat)
    (resume_from : Nat) (step : Executor.PlanStep) (rest : List Executor.PlanStep)
    (i0 : Nat) (h1 : completed.contains (step.step_number.getD i0) = false)
    (h2 : ¬ step.step_number.getD i0 < resume_from)
    (h3 : (env.step_result i0 0).success = false)
    (h4 : (Executor.recovery_events env i0 (step.step_number.getD i0) step
            (env.step_result i0 0)).2 = true) :
    Executor.execute_plan_loop env completed resume_from (step :: rest) i0
      = (Executor.PlanEv.exec i0 (step.step_number.getD i0) 0
          :: (Executor.recovery_events env i0 (step.step_number.getD i0) step
              (env.step_result i0 0)).1)
        ++ Executor.execute_plan_loop env completed resume_from rest (i0 + 1) := by
  simp only [Executor.execute_plan_loop]
  rw [if_neg (by simpa using h1), if_neg h2, if_neg (by simp [h3]), if_pos h4]

theorem plan_loop_rec_halt (env : Executor.PlanEnv) (completed : List Nat)
    (resume_from : Nat) (step : Executor.PlanStep) (rest : List Executor.PlanStep)
    (i0 : Nat) (h1 : completed.contains (step.step_number.getD i0) = false)
    (h2 : ¬ step.step_number.getD i0 < resume_from)
    (h3 : (env.step_result i0 0).success = false)
    (h4 : (Executor.recovery_events env i0 (step.step_number.getD i0) step
            (env.step_result i0 0)).2 = false) :
    Executor.execute_plan_loop env completed resume_from (step :: rest) i0
      = Executor.PlanEv.exec i0 (step.step_number.getD i0) 0
          :: (Executor.recovery_events env i0 (step.step_number.getD i0) step
              (env.step_result i0 0)).1 := by
  simp only [Executor.execute_plan_loop]
  rw [if_neg (by simpa using h1), if_neg h2, if_neg (by simp [h3]), if_neg (by simp [h4])]

theorem plan_loop_idx (env : Executor.PlanEnv) (completed : List Nat)
    (resume_from : Nat) :
    ∀ (steps : List Executor.PlanStep) (i0 : Nat),
      ∀ ev ∈ Executor.execute_plan_loop env completed resume_from steps i0,
        i0 ≤ ev.idx := by
  intro steps
  induction steps with
  | nil =>
    intro i0 ev h
    simp [Executor.execute_plan_loop] at h
  | cons step rest ih =>
    intro i0 ev h
    have hstep : ∀ ev', ev' ∈ Executor.execute_plan_loop env completed resume_from
        rest (i0 + 1) → i0 ≤ ev'.idx :=
      fun ev' h' => le_trans (Nat.le_succ i0) (ih (i0 + 1) ev' h')
    cases hc : completed.contains (step.step_number.getD i0) with
    | true =>
      rw [plan_loop_skip1 env completed resume_from step rest i0 hc] at h
      exact hstep ev h
    | false =>
      by_cases hr : step.step_number.getD i0 < resume_from
      · rw [plan_loop_skip2 env completed resume_from step rest i0 hc hr] at h
        exact hstep ev h
      · cases hs : (env.step_result i0 0).success with
        | true =>
          rw [plan_loop_success env completed resume_from step rest i0 hc hr hs] at h
          rcases List.mem_cons.mp h with h' | h'
          · rw [h']; exact le_rfl
          · exact hstep ev h'
        | false =>
          cases hrec : (Executor.recovery_events env i0 (step.step_number.getD i0)
              step (env.step_result i0 0)).2 with
          | true =>
            rw [plan_loop_rec_cont env completed resume_from step rest i0 hc hr hs hrec] at h
            rcases List.mem_append.mp h with h' | h'
            · rcases List.mem_cons.mp h' with h'' | h''
              · rw [h'']; exact le_rfl
              · rw [recovery_ev_idx env i0 (step.step_number.getD i0) step
                  (env.step_result i0 0) ev h'']
            · exact hstep ev h'
          | false =>
            rw [plan_loop_rec_halt env completed resume_from step rest i0 hc hr hs hrec] at h
            rcases List.mem_cons.mp h with h' | h'
            · rw [h']; exact le_rfl
            · rw [recovery_ev_idx env i0 (step.step_number.getD i0) step
                (env.step_result i0 0) ev h']

theorem plan_loop_not_completed (env : Executor.PlanEnv) (completed : List Nat)
    (resume_from : Nat) :
    ∀ (steps : List Executor.PlanStep) (i0 i n k : Nat),
      Executor.PlanEv.exec i n k
          ∈ Executor.execute_plan_loop env completed resume_from steps i0 →
      completed.contains n = false := by
  intro steps
  induction steps with
  | nil =>
    intro i0 i n k h
    simp [Executor.execute_plan_loop] at h
  | cons step rest ih =>
    intro i0 i n k h
    cases hc : completed.contains (step.step_number.getD i0) with
    | true =>
      rw [plan_loop_skip1 env completed resume_from step rest i0 hc] at h
      exact ih (i0 + 1) i n k h
    | false =>
      by_cases hr : step.step_number.getD i0 < resume_from
      · rw [plan_loop_skip2 env completed resume_from step rest i0 hc hr] at h
        exact ih (i0 + 1) i n k h
      · cases hs : (env.step_result i0 0).success with
        | true =>
          rw [plan_loop_success env completed resume_from step rest i0 hc hr hs] at h
          rcases List.mem_cons.mp h with h' | h'
          · rw [Executor.PlanEv.exec.injEq] at h'
            rw [h'.2.1]
            exact hc
          · exact ih (i0 + 1) i n k h'
        | false =>
          cases hrec : (Executor.recovery_events env i0 (step.step_number.getD i0)
              step (env.step_result i0 0)).2 with
          | true =>
            rw [plan_loop_rec_cont env completed resume_from step rest i0 hc hr hs hrec] at h
            rcases List.mem_append.mp h with h' | h'
            · rcases List.mem_cons.mp h' with h'' | h''
              · rw [Executor.PlanEv.exec.injEq] at h''
                rw [h''.2.1]
                exact hc
              · obtain ⟨_, hm, _⟩ := recovery_exec_mem env i0 (step.step_number.getD i0)
                  step (env.step_result i0 0) i n k h''
                rw [hm]
                exact hc
            · exact ih (i0 + 1) i n k h'
          | false =>
            rw [plan_loop_rec_halt env completed resume_from step rest i0 hc hr hs hrec] at h
            rcases List.mem_cons.mp h with h' | h'
            · rw [Executor.PlanEv.exec.injEq] at h'
              rw [h'.2.1]
              exact hc
            · obtain ⟨_, hm, _⟩ := recovery_exec_mem env i0 (step.step_number.getD i0)
                step (env.step_result i0 0) i n k h'
              rw [hm]
              exact hc

theorem plan_loop_fix_gating (env : Executor.PlanEnv) (completed : List Nat)
    (resume_from : Nat) :
    ∀ (steps : List Executor.PlanStep) (i0 i : Nat) (a : ErrorRecovery.Diagnosis),
      Executor.PlanEv.fix i a
          ∈ Executor.execute_plan_loop env completed resume_from steps i0 →
      a.can_auto_retry = true ∧ env.dry_run = false
        ∧ Executor.fix_accepted env = true ∧ env.has_session = true := by
  intro steps
  induction steps with
  | nil =>
    intro i0 i a h
    simp [Executor.execute_plan_loop] at h
  | cons step rest ih =>
    intro i0 i a h
    cases hc : completed.contains (step.step_number.getD i0) with
    | true =>
      rw [plan_loop_skip1 env completed resume_from step rest i0 hc] at h
      exact ih (i0 + 1) i a h
    | false =>
      by_cases hr : step.step_number.getD i0 < resume_from
      · rw [plan_loop_skip2 env completed resume_from step rest i0 hc hr] at h
        exact ih (i0 + 1) i a h
      · cases hs : (env.step_result i0 0).success with
        | true =>
          rw [plan_loop_success env completed resume_from step rest i0 hc hr hs] at h
          rcases List.mem_cons.mp h with h' | h'
          · cases h'
          · exact ih (i0 + 1) i a h'
        | false =>
          cases hrec : (Executor.recovery_events env i0 (step.step_number.getD i0)
              step (env.step_result i0 0)).2 with
          | true =>
            rw [plan_loop_rec_cont env completed resume_from step rest i0 hc hr hs hrec] at h
            rcases List.mem_append.mp h with h' | h'
            · rcases List.mem_cons.mp h' with h'' | h''
              · cases h''
              · obtain ⟨_, _, hca, hd, hacc, hsess⟩ := recovery_fix_mem env i0
                  (step.step_number.getD i0) step (env.step_result i0 0) i a h''
                exact ⟨hca, hd, hacc, hsess⟩
            · exact ih (i0 + 1) i a h'
          | false =>
            rw [plan_loop_rec_halt env completed resume_from step rest i0 hc hr hs hrec] at h
            rcases List.mem_cons.mp h with h' | h'
            · cases h'
            · obtain ⟨_, _, hca, hd, hacc, hsess⟩ := recovery_fix_mem env i0
                (step.step_number.getD i0) step (env.step_result i0 0) i a h'
              exact ⟨hca, hd, hacc, hsess⟩

theorem plan_loop_exec_attempt (env : Executor.PlanEnv) (completed : List Nat)
    (resume_from : Nat) :
    ∀ (steps : List Executor.PlanStep) (i0 i n k : Nat),
      Executor.PlanEv.exec i n k
          ∈ Executor.execute_plan_loop env completed resume_from steps i0 →
      k ≤ 1 := by
  intro steps
  induction steps with
  | nil =>
    intro i0 i n k h
    simp [Executor.execute_plan_loop] at h
  | cons step rest ih =>
    intro i0 i n k h
    cases hc : completed.contains (step.step_number.getD i0) with
    | true =>
      rw [plan_loop_skip1 env completed resume_from step rest i0 hc] at h
      exact ih (i0 + 1) i n k h
    | false =>
      by_cases hr : step.step_number.getD i0 < resume_from
      · rw [plan_loop_skip2 env completed resume_from step rest i0 hc hr] at h
        exact ih (i0 + 1) i n k h
      · cases hs : (env.step_result i0 0).success with
        | true =>
          rw [plan_loop_success env completed resume_from step rest i0 hc hr hs] at h
          rcases List.mem_cons.mp h with h' | h'
          · rw [Executor.PlanEv.exec.injEq] at h'
            omega
          · exact ih (i0 + 1) i n k h'
        | false =>
          cases hrec : (Executor.recovery_events env i0 (step.step_number.getD i0)
              step (env.step_result i0 0)).2 with
          | true =>
            rw [plan_loop_rec_cont env completed resume_from step rest i0 hc hr hs hrec] at h
            rcases List.mem_append.mp h with h' | h'
            · rcases List.mem_cons.mp h' with h'' | h''
              · rw [Executor.PlanEv.exec.injEq] at h''
                omega
              · obtain ⟨_, _, hk⟩ := recovery_exec_mem env i0 (step.step_number.getD i0)
                  step (env.step_result i0 0) i n k h''
                omega
            · exact ih (i0 + 1) i n k h'
          | false =>
            rw [plan_loop_rec_halt env completed resume_from step rest i0 hc hr hs hrec] at h
            rcases List.mem_cons.mp h with h' | h'
            · rw [Executor.PlanEv.exec.injEq] at h'
              omega
            · obtain ⟨_, _, hk⟩ := recovery_exec_mem env i0 (step.step_number.getD i0)
                step (env.step_result i0 0) i n k h'
              omega

theorem plan_loop_fix_success_retry (env : Executor.PlanEnv) (completed : List Nat)
    (resume_from : Nat) :
    ∀ (steps : List Executor.PlanStep) (i0 i : Nat) (a : ErrorRecovery.Diagnosis),
      Executor.PlanEv.fix i a
          ∈ Executor.execute_plan_loop env completed resume_from steps i0 →
      (env.fix_result a.suggested_fix).success = true →
      ∃ n, Executor.PlanEv.exec i n 1
          ∈ Executor.execute_plan_loop env completed resume_from steps i0 := by
  intro steps
  induction steps with
  | nil =>
    intro i0 i a h _
    simp [Executor.execute_plan_loop] at h
  | cons step rest ih =>
    intro i0 i a h hfr
    cases hc : completed.contains (step.step_number.getD i0) with
    | true =>
      rw [plan_loop_skip1 env completed resume_from step rest i0 hc] at h ⊢
      exact ih (i0 + 1) i a h hfr
    | false =>
      by_cases hr : step.step_number.getD i0 < resume_from
      · rw [plan_loop_skip2 env completed resume_from step rest i0 hc hr] at h ⊢
        exact ih (i0 + 1) i a h hfr
      · cases hs : (env.step_result i0 0).success with
        | true =>
          rw [plan_loop_success env completed resume_from step rest i0 hc hr hs] at h ⊢
          rcases List.mem_cons.mp h with h' | h'
          · cases h'
          · obtain ⟨n, hm⟩ := ih (i0 + 1) i a h' hfr
            exact ⟨n, List.mem_cons_of_mem _ hm⟩
        | false =>
          cases hrec : (Executor.recovery_events env i0 (step.step_number.getD i0)
              step (env.step_result i0 0)).2 with
          | true =>
            rw [plan_loop_rec_cont env completed resume_from step rest i0 hc hr hs hrec] at h ⊢
            rcases List.mem_append.mp h with h' | h'
            · rcases List.mem_cons.mp h' with h'' | h''
              · cases h''
              · obtain ⟨hi, _, _, _, _, _⟩ := recovery_fix_mem env i0
                  (step.step_number.getD i0) step (env.step_result i0 0) i a h''
                have hexec := recovery_fix_success_exec env i0
                  (step.step_number.getD i0) step (env.step_result i0 0) i a h'' hfr
                refine ⟨step.step_number.getD i0, ?_⟩
                rw [hi]
                exact List.mem_append_left _ (List.mem_cons_of_mem _ hexec)
            · obtain ⟨n, hm⟩ := ih (i0 + 1) i a h' hfr
              exact ⟨n, List.mem_append_right _ hm⟩
          | false =>
            rw [plan_loop_rec_halt env completed resume_from step rest i0 hc hr hs hrec] at h ⊢
            rcases List.mem_cons.mp h with h' | h'
            · cases h'
            · obtain ⟨hi, _, _, _, _, _⟩ := recovery_fix_mem env i0
                (step.step_number.getD i0) step (env.step_result i0 0) i a h'
              have hexec := recovery_fix_success_exec env i0
                (step.step_number.getD i0) step (env.step_result i0 0) i a h' hfr
              refine ⟨step.step_number.getD i0, ?_⟩
              rw [hi]
              exact List.mem_cons_of_mem _ hexec

theorem plan_loop_retry_fail_halts (env : Executor.PlanEnv) (completed : List Nat)
    (resume_from : Nat) :
    ∀ (steps : List Executor.PlanStep) (i0 i n : Nat),
      Executor.PlanEv.exec i n 1
          ∈ Executor.execute_plan_loop env completed resume_from steps i0 →
      (env.step_result i 1).success = false →
      ∀ j m k, Executor.PlanEv.exec j m k
          ∈ Executor.execute_plan_loop env completed resume_from steps i0 →
        j ≤ i := by
  intro steps
  induction steps with
  | nil =>
    intro i0 i n h _ j m k hjk
    simp [Executor.execute_plan_loop] at h
  | cons step rest ih =>
    intro i0 i n h hfail j m k hjk
    cases hc : completed.contains (step.step_number.getD i0) with
    | true =>
      rw [plan_loop_skip1 env completed resume_from step rest i0 hc] at h hjk
      exact ih (i0 + 1) i n h hfail j m k hjk
    | false =>
      by_cases hr : step.step_number.getD i0 < resume_from
      · rw [plan_loop_skip2 env completed resume_from step rest i0 hc hr] at h hjk
        exact ih (i0 + 1) i n h hfail j m k hjk
      · cases hs : (env.step_result i0 0).success with
        | true =>
          rw [plan_loop_success env completed resume_from step rest i0 hc hr hs] at h hjk
          rcases List.mem_cons.mp h with h' | h'
          · rw [Executor.PlanEv.exec.injEq] at h'
            omega
          · have hi : i0 + 1 ≤ i :=
              plan_loop_idx env completed resume_from rest (i0 + 1) _ h'
            rcases List.mem_cons.mp hjk with hjk' | hjk'
            · rw [Executor.PlanEv.exec.injEq] at hjk'
              omega
            · exact ih (i0 + 1) i n h' hfail j m k hjk'
        | false =>
          cases hrec : (Executor.recovery_events env i0 (step.step_number.getD i0)
              step (env.step_result i0 0)).2 with
          | true =>
            rw [plan_loop_rec_cont env completed resume_from step rest i0 hc hr hs hrec] at h hjk
            rcases List.mem_append.mp h with h' | h'
            · rcases List.mem_cons.mp h' with h'' | h''
              · rw [Executor.PlanEv.exec.injEq] at h''
                omega
              · obtain ⟨hi, _, _⟩ := recovery_exec_mem env i0 (step.step_number.getD i0)
                  step (env.step_result i0 0) i n 1 h''
                rw [hi] at hfail
                have := recovery_exec_fail_cont env i0 (step.step_number.getD i0)
                  step (env.step_result i0 0) i n (by rw [hi] at h'' ⊢; exact h'') hfail
                rw [this] at hrec
                cases hrec
            · have hi : i0 + 1 ≤ i :=
                plan_loop_idx env completed resume_from rest (i0 + 1) _ h'
              rcases List.mem_append.mp hjk with hjk' | hjk'
              · rcases List.mem_cons.mp hjk' with hjk'' | hjk''
                · rw [Executor.PlanEv.exec.injEq] at hjk''
                  omega
                · obtain ⟨hj, _, _⟩ := recovery_exec_mem env i0 (step.step_number.getD i0)
                    step (env.step_result i0 0) j m k hjk''
                  omega
              · exact ih (i0 + 1) i n h' hfail j m k hjk'
          | false =>
            rw [plan_loop_rec_halt env completed resume_from step rest i0 hc hr hs hrec] at h hjk
            rcases List.mem_cons.mp h with h' | h'
            · rw [Executor.PlanEv.exec.injEq] at h'
              omega
            · obtain ⟨hi, _, _⟩ := recovery_exec_mem env i0 (step.step_number.getD i0)
                step (env.step_result i0 0) i n 1 h'
              rcases List.mem_cons.mp hjk with hjk' | hjk'
              · rw [Executor.PlanEv.exec.injEq] at hjk'
                omega
              · obtain ⟨hj, _, _⟩ := recovery_exec_mem env i0 (step.step_number.getD i0)
                  step (env.step_result i0 0) j m k hjk'
                omega

theorem plan_loop_fix_fail_halts (env : Executor.PlanEnv) (completed : List Nat)
    (resume_from : Nat) :
    ∀ (steps : List Executor.PlanStep) (i0 i : Nat) (a : ErrorRecovery.Diagnosis),
      Executor.PlanEv.fix i a
          ∈ Executor.execute_plan_loop env completed resume_from steps i0 →
      (env.fix_result a.suggested_fix).success = false →
      ∀ j m k, Executor.PlanEv.exec j m k
          ∈ Executor.execute_plan_loop env completed resume_from steps i0 →
        j ≤ i := by
  intro steps
  induction steps with
  | nil =>
    intro i0 i a h _ j m k hjk
    simp [Executor.execute_plan_loop] at h
  | cons step rest ih =>
    intro i0 i a h hfr j m k hjk
    cases hc : completed.contains (step.step_number.getD i0) with
    | true =>
      rw [plan_loop_skip1 env completed resume_from step rest i0 hc] at h hjk
      exact ih (i0 + 1) i a h hfr j m k hjk
    | false =>
      by_cases hr : step.step_number.getD i0 < resume_from
      · rw [plan_loop_skip2 env completed resume_from step rest i0 hc hr] at h hjk
        exact ih (i0 + 1) i a h hfr j m k hjk
      · cases hs : (env.step_result i0 0).success with
        | true =>
          rw [plan_loop_success env completed resume_from step rest i0 hc hr hs] at h hjk
          rcases List.mem_cons.mp h with h' | h'
          · cases h'
          · have hi : i0 + 1 ≤ i :=
              plan_loop_idx env completed resume_from rest (i0 + 1) _ h'
            rcases List.mem_cons.mp hjk with hjk' | hjk'
            · rw [Executor.PlanEv.exec.injEq] at hjk'
              omega
            · exact ih (i0 + 1) i a h' hfr j m k hjk'
        | false =>
          cases hrec : (Executor.recovery_events env i0 (step.step_number.getD i0)
              step (env.step_result i0 0)).2 with
          | true =>
            rw [plan_loop_rec_cont env completed resume_from step rest i0 hc hr hs hrec] at h hjk
            rcases List.mem_append.mp h with h' | h'
            · rcases List.mem_cons.mp h' with h'' | h''
              · cases h''
              · have := recovery_fix_fail_cont env i0 (step.step_number.getD i0)
                  step (env.step_result i0 0) i a h'' hfr
                rw [this] at hrec
                cases hrec
            · have hi : i0 + 1 ≤ i :=
                plan_loop_idx env completed resume_from rest (i0 + 1) _ h'
              rcases List.mem_append.mp hjk with hjk' | hjk'
              · rcases List.mem_cons.mp hjk' with hjk'' | hjk''
                · rw [Executor.PlanEv.exec.injEq] at hjk''
                  omega
                · obtain ⟨hj, _, _⟩ := recovery_exec_mem env i0 (step.step_number.getD i0)
                    step (env.step_result i0 0) j m k hjk''
                  omega
              · exact ih (i0 + 1) i a h' hfr j m k hjk'
          | false =>
            rw [plan_loop_rec_halt env completed resume_from step rest i0 hc hr hs hrec] at h hjk
            rcases List.mem_cons.mp h with h' | h'
            · cases h'
            · obtain ⟨hi, _, _, _, _, _⟩ := recovery_fix_mem env i0
                (step.step_number.getD i0) step (env.step_result i0 0) i a h'
              rcases List.mem_cons.mp hjk with hjk' | hjk'
              · rw [Executor.PlanEv.exec.injEq] at hjk'
                omega
              · obtain ⟨hj, _, _⟩ := recovery_exec_mem env i0 (step.step_number.getD i0)
                  step (env.step_result i0 0) j m k hjk'
                omega

/-- C2 as frozen is false on the code: `execute_plan` gates the automatic
fix on `analysis.get('can_auto_retry') and not self.dry_run` alone — the
fix_type is never checked.  A failed step whose stderr matches the
"could not resolve host" table row (fix_type = retry, can_auto_retry = true)
has its suggested fix — the prose string `Check internet connection and
retry` — executed as a command, and on its success the step is retried. -/
theorem execute_plan_fix_without_modify_command :
    Executor.execute_plan
        { dry_run := false, has_session := true, fix_answer := "",
          step_result := fun _ k => if k = 0 then
              { success := false, returncode := 1, stdout := "",
                stderr := "could not resolve host" }
            else { success := true, returncode := 0, stdout := "", stderr := "" },
          fix_result := fun _ =>
            { success := true, returncode := 0, stdout := "", stderr := "" },
          analyze := ErrorRecovery.fallback_analyze }
        [] 0
        [{ step_number := some 0, name := "fetch", command := "curl x",
           commands := [], requires_sudo := false, check_command := "" }]
      = [Executor.PlanEv.exec 0 0 0,
         Executor.PlanEv.fix 0
           (ErrorRecovery.fallback_analyze "curl x" "" "could not resolve host"),
         Executor.PlanEv.exec 0 0 1]
    ∧ (ErrorRecovery.fallback_analyze "curl x" "" "could not resolve host").fix_type
        = "retry" := by
  exact ⟨by decide, by decide⟩

/-- C2 (amended): during plan execution, for every failed step the suggested
fix command is executed only when the analysis has can_auto_retry = true AND
dry-run is off (and the user accepts the prompt) — the fix_type is not
consulted; each step is re-executed at most once (attempts are numbered 0
and 1), a successful fix is followed by exactly one re-execution of the
original step, and any further failure — of the fix command or of the
re-executed step — halts the plan: no step at a later position runs. -/
theorem execute_plan_fix_policy (env : Executor.PlanEnv) (completed : List Nat)
    (resume_from : Nat) (steps : List Executor.PlanStep) :
    (∀ i a, Executor.PlanEv.fix i a
        ∈ Executor.execute_plan env completed resume_from steps →
      a.can_auto_retry = true ∧ env.dry_run = false
        ∧ Executor.fix_accepted env = true)
    ∧ (∀ i n k, Executor.PlanEv.exec i n k
        ∈ Executor.execute_plan env completed resume_from steps → k ≤ 1)
    ∧ (∀ i a, Executor.PlanEv.fix i a
        ∈ Executor.execute_plan env completed resume_from steps →
      (env.fix_result a.suggested_fix).success = true →
      ∃ n, Executor.PlanEv.exec i n 1
        ∈ Executor.execute_plan env completed resume_from steps)
    ∧ (∀ i n, Executor.PlanEv.exec i n 1
        ∈ Executor.execute_plan env completed resume_from steps →
      (env.step_result i 1).success = false →
      ∀ j m k, Executor.PlanEv.exec j m k
          ∈ Executor.execute_plan env completed resume_from steps → j ≤ i)
    ∧ (∀ i a, Executor.PlanEv.fix i a
        ∈ Executor.execute_plan env completed resume_from steps →
      (env.fix_result a.suggested_fix).success = false →
      ∀ j m k, Executor.PlanEv.exec j m k
          ∈ Executor.execute_plan env completed resume_from steps → j ≤ i) := by
  refine ⟨?_, ?_, ?_, ?_, ?_⟩
  · intro i a h
    obtain ⟨h1, h2, h3, _⟩ := plan_loop_fix_gating env completed resume_from steps 0 i a h
    exact ⟨h1, h2, h3⟩
  · exact fun i n k h => plan_loop_exec_attempt env completed resume_from steps 0 i n k h
  · exact fun i a h hf =>
      plan_loop_fix_success_retry env completed resume_from steps 0 i a h hf
  · exact fun i n h hf =>
      plan_loop_retry_fail_halts env completed resume_from steps 0 i n h hf
  · exact fun i a h hf =>
      plan_loop_fix_fail_halts env completed resume_from steps 0 i a h hf

/-- Witness for `execute_plan_fix_policy` on concrete one-step plans: the
gating facts for the executed fix, the attempt bound, the guaranteed single
retry after a successful fix, and the halting conclusions when the retry or
the fix fails. -/
theorem execute_plan_fix_policy_witness :
    ((ErrorRecovery.fallback_analyze "curl x" "" "could not resolve host").can_auto_retry
        = true
      ∧ (false : Bool) = false
      ∧ Executor.fix_accepted
          { dry_run := false, has_session := true, fix_answer := "",
            step_result := fun _ k => if k = 0 then
                { success := false, returncode := 1, stdout := "",
                  stderr := "could not resolve host" }
              else { success := true, returncode := 0, stdout := "", stderr := "" },
            fix_result := fun _ =>
              { success := true, returncode := 0, stdout := "", stderr := "" },
            analyze := ErrorRecovery.fallback_analyze } = true)
    ∧ (1 : Nat) ≤ 1
    ∧ (∃ n, Executor.PlanEv.exec 0 n 1 ∈ Executor.execute_plan
        { dry_run := false, has_session := true, fix_answer := "",
          step_result := fun _ k => if k = 0 then
              { success := false, returncode := 1, stdout := "",
                stderr := "could not resolve host" }
            else { success := true, returncode := 0, stdout := "", stderr := "" },
          fix_result := fun _ =>
            { success := true, returncode := 0, stdout := "", stderr := "" },
          analyze := ErrorRecovery.fallback_analyze }
        [] 0
        [{ step_number := some 0, name := "fetch", command := "curl x",
           commands := [], requires_sudo := false, check_command := "" }])
    ∧ (0 : Nat) ≤ 0
    ∧ (0 : Nat) ≤ 0 := by
  refine ⟨?_, ?_, ?_, ?_, ?_⟩
  · exact (execute_plan_fix_policy
      { dry_run := false, has_session := true, fix_answer := "",
        step_result := fun _ k => if k = 0 then
            { success := false, returncode := 1, stdout := "",
              stderr := "could not resolve host" }
          else { success := true, returncode := 0, stdout := "", stderr := "" },
        fix_result := fun _ =>
          { success := true, returncode := 0, stdout := "", stderr := "" },
        analyze := ErrorRecovery.fallback_analyze }
      [] 0
      [{ step_number := some 0, name := "fetch", command := "curl x",
         commands := [], requires_sudo := false, check_command := "" }]).1
      0 (ErrorRecovery.fallback_analyze "curl x" "" "could not resolve host")
      (by decide)
  · exact (execute_plan_fix_policy
      { dry_run := false, has_session := true, fix_answer := "",
        step_result := fun _ k => if k = 0 then
            { success := false, returncode := 1, stdout := "",
              stderr := "could not resolve host" }
          else { success := true, returncode := 0, stdout := "", stderr := "" },
        fix_result := fun _ =>
          { success := true, returncode := 0, stdout := "", stderr := "" },
        analyze := ErrorRecovery.fallback_analyze }
      [] 0
      [{ step_number := some 0, name := "fetch", command := "curl x",
         commands := [], requires_sudo := false, check_command := "" }]).2.1
      0 0 1 (by decide)
  · exact (execute_plan_fix_policy
      { dry_run := false, has_session := true, fix_answer := "",
        step_result := fun _ k => if k = 0 then
            { success := false, returncode := 1, stdout := "",
              stderr := "could not resolve host" }
          else { success := true, returncode := 0, stdout := "", stderr := "" },
        fix_result := fun _ =>
          { success := true, returncode := 0, stdout := "", stderr := "" },
        analyze := ErrorRecovery.fallback_analyze }
      [] 0
      [{ step_number := some 0, name := "fetch", command := "curl x",
         commands := [], requires_sudo := false, check_command := "" }]).2.2.1
      0 (ErrorRecovery.fallback_analyze "curl x" "" "could not resolve host")
      (by decide) (by decide)
  · exact (execute_plan_fix_policy
      { dry_run := false, has_session := true, fix_answer := "",
        step_result := fun _ _ =>
            { success := false, returncode := 1, stdout := "",
              stderr := "could not resolve host" },
        fix_result := fun _ =>
          { success := true, returncode := 0, stdout := "", stderr := "" },
        analyze := ErrorRecovery.fallback_analyze }
      [] 0
      [{ step_number := some 0, name := "fetch", command := "curl x",
         commands := [], requires_sudo := false, check_command := "" }]).2.2.2.1
      0 0 (by decide) (by decide) 0 0 0 (by decide)
  · exact (execute_plan_fix_policy
      { dry_run := false, has_session := true, fix_answer := "",
        step_result := fun _ _ =>
            { success := false, returncode := 1, stdout := "",
              stderr := "could not resolve host" },
        fix_result := fun _ =>
          { success := false, returncode := 1, stdout := "", stderr := "" },
        analyze := ErrorRecovery.fallback_analyze }
      [] 0
      [{ step_number := some 0, name := "fetch", command := "curl x",
         commands := [], requires_sudo := false, check_command := "" }]).2.2.2.2
      0 (ErrorRecovery.fallback_analyze "curl x" "" "could not resolve host")
      (by decide) (by decide) 0 0 0 (by decide)

/-- C3: resume idempotence — for every plan, every State Store content and
every `resume_from` value, executing the plan never re-executes a step whose
resolved step_number is among the step_numbers recorded as completed for the
session at entry (the list `get_completed_steps` returns, fetched once at
the start of `execute_plan`). -/
theorem execute_plan_resume_idempotent (env : Executor.PlanEnv) (db : Executor.Db)
    (session_id : String) (resume_from : Nat) (steps : List Executor.PlanStep) :
    ∀ n ∈ Executor.get_completed_steps db session_id,
      ∀ i k, Executor.PlanEv.exec i n k
          ∉ Executor.execute_plan env (Executor.get_completed_steps db session_id)
              resume_from steps := by
  intro n hn i k h
  have hcon := plan_loop_not_completed env (Executor.get_completed_steps db session_id)
    resume_from steps 0 i n k h
  have : n ∉ Executor.get_completed_steps db session_id := by simpa using hcon
  exact this hn

/-- Witness for `execute_plan_resume_idempotent`: with one completed row for
step_number 1, a one-step plan whose step has number 1 never produces an
execution event for it. -/
theorem execute_plan_resume_idempotent_witness :
    Executor.PlanEv.exec 0 1 0
      ∉ Executor.execute_plan
          { dry_run := false, has_session := true, fix_answer := "",
            step_result := fun _ _ =>
              { success := true, returncode := 0, stdout := "", stderr := "" },
            fix_result := fun _ =>
              { success := true, returncode := 0, stdout := "", stderr := "" },
            analyze := ErrorRecovery.fallback_analyze }
          (Executor.get_completed_steps
            { sessions := [],
              execution_state := [{ session_id := "s", step_number := 1,
                                    step_name := "a", status := "completed" }] } "s")
          0
          [{ step_number := some 1, name := "a", command := "echo ok",
             commands := [], requires_sudo := false, check_command := "" }] :=
  execute_plan_resume_idempotent
    { dry_run := false, has_session := true, fix_answer := "",
      step_result := fun _ _ =>
        { success := true, returncode := 0, stdout := "", stderr := "" },
      fix_result := fun _ =>
        { success := true, returncode := 0, stdout := "", stderr := "" },
      analyze := ErrorRecovery.fallback_analyze }
    { sessions := [],
      execution_state := [{ session_id := "s", step_number := 1,
                            step_name := "a", status := "completed" }] }
    "s" 0
    [{ step_number := some 1, name := "a", command := "echo ok",
       commands := [], requires_sudo := false, check_command := "" }]
    1 (by decide) 0 0

/-! ## C8: backup / restore round trip -/

theorem fs_set_self (fs : RollbackM.FS) (p : String) (v : Option String) :
    RollbackM.fs_set fs p v p = v := by
  simp [RollbackM.fs_set]

theorem fs_set_other (fs : RollbackM.FS) (p q : String) (v : Option String)
    (h : q ≠ p) : RollbackM.fs_set fs p v q = fs q := by
  simp [RollbackM.fs_set, h]

theorem find?_append_singleton {α : Type} (p : α → Bool) (l : List α) (x : α)
    (hl : ∀ y ∈ l, p y = false) (hx : p x = true) :
    (l ++ [x]).find? p = some x := by
  induction l with
  | nil => exact find?_cons_true p x [] hx
  | cons a as ih =>
    rw [List.cons_append, find?_cons_false p a _ (hl a (List.mem_cons_self a as))]
    exact ih (fun y hy => hl y (List.mem_cons_of_mem a hy))

theorem create_backup_single (env : RollbackM.RbEnv) (st : RollbackM.RbState)
    (svc desc now p d : String)
    (hpath : RollbackM.get_service_data_path env.home svc = some p)
    (hdata : st.fs p = some d)
    (h1 : p ≠ RollbackM.config_backup_path_of env now)
    (h4 : RollbackM.data_backup_path_of env now svc
          ≠ RollbackM.container_backup_path_of env now svc) :
    (RollbackM.create_backup env st [svc] desc now).1 = RollbackM.backup_id_of now
    ∧ (RollbackM.create_backup env st [svc] desc now).2.fs
        (RollbackM.data_backup_path_of env now svc) = some d
    ∧ ∃ row : RollbackM.BackupRow,
        (RollbackM.create_backup env st [svc] desc now).2.backup_points
            = st.backup_points ++ [row]
        ∧ row.backup_id = RollbackM.backup_id_of now
        ∧ row.services = [svc]
        ∧ List.lookup svc row.data_paths
            = some (RollbackM.data_backup_path_of env now svc) := by
  rcases hcfg : st.fs "config.json" with _ | c
  · have hfs1 : st.fs p = some d := hdata
    by_cases hdock : (RollbackM.is_docker_service svc
        && env.docker_export_ok svc) = true
    · refine ⟨rfl, ?_, ?_⟩
      · simp only [RollbackM.create_backup, hcfg, List.foldl, hpath, hfs1]
        rw [if_pos hdock]
        dsimp only
        rw [fs_set_other _ _ _ _ h4, fs_set_self]
      · refine ⟨{ backup_id := RollbackM.backup_id_of now, timestamp := now,
                  description := desc, services := [svc],
                  config_backup_path := none,
                  data_paths := [(svc, RollbackM.data_backup_path_of env now svc),
                    (svc ++ "_container",
                     RollbackM.container_backup_path_of env now svc)],
                  created_at := now }, ?_, rfl, rfl, ?_⟩
        · simp only [RollbackM.create_backup, hcfg, List.foldl, hpath, hfs1]
          rw [if_pos hdock]
          simp
        · simp [List.lookup]
    · refine ⟨rfl, ?_, ?_⟩
      · simp only [RollbackM.create_backup, hcfg, List.foldl, hpath, hfs1]
        rw [if_neg hdock]
        dsimp only
        rw [fs_set_self]
      · refine ⟨{ backup_id := RollbackM.backup_id_of now, timestamp := now,
                  description := desc, services := [svc],
                  config_backup_path := none,
                  data_paths := [(svc, RollbackM.data_backup_path_of env now svc)],
                  created_at := now }, ?_, rfl, rfl, ?_⟩
        · simp only [RollbackM.create_backup, hcfg, List.foldl, hpath, hfs1]
          rw [if_neg hdock]
          simp
        · simp [List.lookup]
  · have hfs1 : RollbackM.fs_set st.fs (RollbackM.config_backup_path_of env now)
        (some c) p = some d := by
      rw [fs_set_other _ _ _ _ h1]
      exact hdata
    by_cases hdock : (RollbackM.is_docker_service svc
        && env.docker_export_ok svc) = true
    · refine ⟨rfl, ?_, ?_⟩
      · simp only [RollbackM.create_backup, hcfg, List.foldl, hpath, hfs1]
        rw [if_pos hdock]
        dsimp only
        rw [fs_set_other _ _ _ _ h4, fs_set_self]
      · refine ⟨{ backup_id := RollbackM.backup_id_of now, timestamp := now,
                  description := desc, services := [svc],
                  config_backup_path := some (RollbackM.config_backup_path_of env now),
                  data_paths := [(svc, RollbackM.data_backup_path_of env now svc),
                    (svc ++ "_container",
                     RollbackM.container_backup_path_of env now svc)],
                  created_at := now }, ?_, rfl, rfl, ?_⟩
        · simp only [RollbackM.create_backup, hcfg, List.foldl, hpath, hfs1]
          rw [if_pos hdock]
          simp
        · simp [List.lookup]
    · refine ⟨rfl, ?_, ?_⟩
      · simp only [RollbackM.create_backup, hcfg, List.foldl, hpath, hfs1]
        rw [if_neg hdock]
        dsimp only
        rw [fs_set_self]
      · refine ⟨{ backup_id := RollbackM.backup_id_of now, timestamp := now,
                  description := desc, services := [svc],
                  config_backup_path := some (RollbackM.config_backup_path_of env now),
                  data_paths := [(svc, RollbackM.data_backup_path_of env now svc)],
                  created_at := now }, ?_, rfl, rfl, ?_⟩
        · simp only [RollbackM.create_backup, hcfg, List.foldl, hpath, hfs1]
          rw [if_neg hdock]
          simp
        · simp [List.lookup]

/-- C8: backup/restore round trip.  For a service with a known data path
whose data directory exists, `create_backup([svc])` followed by an arbitrary
mutation (or deletion) of that data directory followed by a confirmed
`rollback(backup_id)` leaves the data directory content-identical to its
state at backup time — regardless of whether a config snapshot was taken,
whether the docker export succeeded, and whether the service restart
succeeds.  The inequality hypotheses say the snapshot target paths are
distinct from the live paths (they live under the fresh backup directory). -/
theorem backup_restore_round_trip
    (env : RollbackM.RbEnv) (st : RollbackM.RbState) (svc desc now : String)
    (p d : String) (m : Option String) (confirm : Bool) (answer now2 : String)
    (hpath : RollbackM.get_service_data_path env.home svc = some p)
    (hdata : st.fs p = some d)
    (hid : ∀ r ∈ st.backup_points,
      (r.backup_id == RollbackM.backup_id_of now) = false)
    (h1 : p ≠ RollbackM.config_backup_path_of env now)
    (h2 : p ≠ RollbackM.data_backup_path_of env now svc)
    (h4 : RollbackM.data_backup_path_of env now svc
          ≠ RollbackM.container_backup_path_of env now svc)
    (h5 : RollbackM.data_backup_path_of env now svc ≠ "config.json")
    (hconf : confirm = false ∨ (pyLower (pyStrip answer) == "y") = true) :
    ((RollbackM.rollback env
        { fs := RollbackM.fs_set (RollbackM.create_backup env st [svc] desc now).2.fs p m,
          backup_points := (RollbackM.create_backup env st [svc] desc now).2.backup_points,
          rollback_log := (RollbackM.create_backup env st [svc] desc now).2.rollback_log }
        (RollbackM.create_backup env st [svc] desc now).1
        confirm answer now2).2).fs p = some d := by
  obtain ⟨hbid, hsbp, row, hbp, hrowid, hrowsvc, hrowlook⟩ :=
    create_backup_single env st svc desc now p d hpath hdata h1 h4
  rw [hbid, hbp]
  have hfind : ((st.backup_points ++ [row]).find?
      (fun r => r.backup_id == RollbackM.backup_id_of now)) = some row :=
    find?_append_singleton _ _ _ hid (by rw [hrowid]; simp)
  have hcond : (confirm && !(pyLower (pyStrip answer) == "y")) = false := by
    rcases hconf with hc | ha
    · simp [hc]
    · simp [ha]
  have hmut : RollbackM.fs_set (RollbackM.create_backup env st [svc] desc now).2.fs p m
      (RollbackM.data_backup_path_of env now svc) = some d := by
    rw [fs_set_other _ _ _ _ (Ne.symm h2)]
    exact hsbp
  simp only [RollbackM.rollback, hfind, hcond, Bool.false_eq_true, if_false,
    hrowsvc, List.foldl, hrowlook, hpath]
  rcases hcb : row.config_backup_path with _ | cfgp
  · simp only [hcb]
    have hfsr : (if (RollbackM.fs_set
          (RollbackM.create_backup env st [svc] desc now).2.fs p m p).isSome = true
        then RollbackM.fs_set
          (RollbackM.fs_set (RollbackM.create_backup env st [svc] desc now).2.fs p m)
          p none
        else RollbackM.fs_set (RollbackM.create_backup env st [svc] desc now).2.fs p m)
        (RollbackM.data_backup_path_of env now svc) = some d := by
      split
      · rw [fs_set_other _ _ _ _ (Ne.symm h2)]
        exact hmut
      · exact hmut
    simp only [hfsr]
    repeat' split
    all_goals simp [fs_set_self]
  · simp only [hcb]
    rcases hcv : RollbackM.fs_set
        (RollbackM.create_backup env st [svc] desc now).2.fs p m cfgp with _ | c
    · simp only [hcv]
      have hfsr : (if (RollbackM.fs_set
            (RollbackM.create_backup env st [svc] desc now).2.fs p m p).isSome = true
          then RollbackM.fs_set
            (RollbackM.fs_set (RollbackM.create_backup env st [svc] desc now).2.fs p m)
            p none
          else RollbackM.fs_set (RollbackM.create_backup env st [svc] desc now).2.fs p m)
          (RollbackM.data_backup_path_of env now svc) = some d := by
        split
        · rw [fs_set_other _ _ _ _ (Ne.symm h2)]
          exact hmut
        · exact hmut
      simp only [hfsr]
      repeat' split
      all_goals simp [fs_set_self]
    · simp only [hcv]
      have hmut2 : RollbackM.fs_set
          (RollbackM.fs_set (RollbackM.create_backup env st [svc] desc now).2.fs p m)
          "config.json" (some c)
          (RollbackM.data_backup_path_of env now svc) = some d := by
        rw [fs_set_other _ _ _ _ h5]
        exact hmut
      have hfsr : (if (RollbackM.fs_set
            (RollbackM.fs_set (RollbackM.create_backup env st [svc] desc now).2.fs p m)
            "config.json" (some c) p).isSome = true
          then RollbackM.fs_set
            (RollbackM.fs_set
              (RollbackM.fs_set (RollbackM.create_backup env st [svc] desc now).2.fs p m)
              "config.json" (some c))
            p none
          else RollbackM.fs_set
            (RollbackM.fs_set (RollbackM.create_backup env st [svc] desc now).2.fs p m)
            "config.json" (some c))
          (RollbackM.data_backup_path_of env now svc) = some d := by
        split
        · rw [fs_set_other _ _ _ _ (Ne.symm h2)]
          exact hmut2
        · exact hmut2
      simp only [hfsr]
      repeat' split
      all_goals simp [fs_set_self]

/-- Witness for `backup_restore_round_trip`: service adguard with data
`DATA` under home `/h`, backup at time `T` into `/b`, data mutated to
`JUNK`, then a non-interactive rollback restores `DATA`. -/
theorem backup_restore_round_trip_witness :
    ((RollbackM.rollback
        { home := "/h", backup_dir := "/b",
          docker_export_ok := fun _ => true, start_ok := fun _ => true }
        { fs := RollbackM.fs_set
            (RollbackM.create_backup
              { home := "/h", backup_dir := "/b",
                docker_export_ok := fun _ => true, start_ok := fun _ => true }
              { fs := fun q => if q = "/h/adguardhome" then some "DATA" else none,
                backup_points := [], rollback_log := [] }
              ["adguard"] "" "T").2.fs "/h/adguardhome" (some "JUNK"),
          backup_points := (RollbackM.create_backup
              { home := "/h", backup_dir := "/b",
                docker_export_ok := fun _ => true, start_ok := fun _ => true }
              { fs := fun q => if q = "/h/adguardhome" then some "DATA" else none,
                backup_points := [], rollback_log := [] }
              ["adguard"] "" "T").2.backup_points,
          rollback_log := (RollbackM.create_backup
              { home := "/h", backup_dir := "/b",
                docker_export_ok := fun _ => true, start_ok := fun _ => true }
              { fs := fun q => if q = "/h/adguardhome" then some "DATA" else none,
                backup_points := [], rollback_log := [] }
              ["adguard"] "" "T").2.rollback_log }
        (RollbackM.create_backup
            { home := "/h", backup_dir := "/b",
              docker_export_ok := fun _ => true, start_ok := fun _ => true }
            { fs := fun q => if q = "/h/adguardhome" then some "DATA" else none,
              backup_points := [], rollback_log := [] }
            ["adguard"] "" "T").1
        false "" "T2").2).fs "/h/adguardhome" = some "DATA" :=
  backup_restore_round_trip
    { home := "/h", backup_dir := "/b",
      docker_export_ok := fun _ => true, start_ok := fun _ => true }
    { fs := fun q => if q = "/h/adguardhome" then some "DATA" else none,
      backup_points := [], rollback_log := [] }
    "adguard" "" "T" "/h/adguardhome" "DATA" (some "JUNK") false "" "T2"
    (by decide) (by decide) (by simp) (by decide) (by decide) (by decide)
    (by decide) (Or.inl rfl)
